import Mathlib

/-!
Shallow embedding of the `toktok` tokenizer (`src/index.js`).

The JavaScript source is a single class `Tokenizer` whose private fields form
the scan state.  We embed that state as the structure `St` and each private
method as a Lean function over `St`.  Strings are embedded as `List Char`
(the input) and `String` (token values); the character-by-character main loop
of `tokenize()` becomes a fuel-indexed loop (`Tokenizer.loop`), with fuel
`input.length + 1`, which is always sufficient because every iteration
advances `position` by at least one; running out of fuel is reported via the
artificial error kind `ErrKind.outOfFuel`, which never occurs in any theorem
below.

The mutable JavaScript block objects (a block is pushed both into its parent
and onto `#tokenStack`, then filled in place) are embedded as a zipper: the
stack holds `(opener, closer, children-so-far)` and the finished block token
is appended to its parent when the matching closer arrives.  This yields the
same final tree and the same `#getLastMeaningfulToken` view, because while a
block is open every `#addToken` targets that innermost block.
-/

namespace TokTok

/-- Configuration options, with the defaults from the `Tokenizer` constructor.
The numeric-format options (`hexNumbers` …) are stored by the constructor but
never read by any method, so only the four behaviorally relevant flags are
kept. -/
structure Options where
  trackPosition : Bool := true
  preserveWhitespace : Bool := false
  preserveComments : Bool := true
  allowRegex : Bool := true
  deriving Repr, DecidableEq

def defaultOptions : Options := {}

/-- A 1-based line/column pair, as in `{line, column}`. -/
structure TextPos where
  line : Nat
  column : Nat
  deriving Repr, DecidableEq

/-- A token position `{start, end}` (the JS field `end` is `stop` here, since
`end` is a Lean keyword). -/
structure Span where
  start : TextPos
  stop : TextPos
  deriving Repr, DecidableEq

/-- A token.  Atomic tokens are the objects `{type, value}` built in
`tokenize()`/`#finishToken`; `position` models the optional `position` key of
such an object (`none` when the key is absent).  `block` models the
`{type: "block", opener, closer, children}` objects of `#startBlock`. -/
inductive Token where
  | atom (ty : String) (value : String) (position : Option Span)
  | block (opener : Char) (closer : Char) (children : List Token)
  deriving Repr

/-- `token.type`. -/
def tokType : Token → String
  | .atom t _ _ => t
  | .block _ _ _ => "block"

/-- `token.value` (`none` for blocks, whose objects have no `value` key). -/
def tokValue : Token → Option String
  | .atom _ v _ => some v
  | .block _ _ _ => none

/-- The error taxonomy: one constructor per distinct message template built by
`throw this.#error(...)` in the source, carrying exactly the values the
template interpolates.  `outOfFuel` is an artifact of the fuel-based loop
embedding and is never produced for fuel ≥ input length. -/
inductive ErrKind where
  | unexpectedChar (c : Char)
  | malformedNumber (buf : String)
  | unclosedString (delim : Option Char)
  | unterminatedRegex
  | unterminatedComment
  | mismatchedBracket (expected : Char) (actual : Char)
  | unbalancedCloser (c : Char)
  | unclosedBlock (opener : Char)
  | outOfFuel
  deriving Repr, DecidableEq

/-- The structured content of the `Error` built by `#error(message)`:
the offending offset, the 1-based line/column (always computed; the JS code
merely omits them from the rendered message when `trackPosition` is off),
and the context window with the caret offset inside it. -/
structure Err where
  kind : ErrKind
  position : Nat
  line : Nat
  column : Nat
  context : List Char
  pointer : Nat
  deriving Repr, DecidableEq

/-- The scan state: the private fields of class `Tokenizer`.  `stack` is the
zipper form of `#tokenStack` (opener, closer, children accumulated so far);
`#currentBlock` is its head.  -/
structure St where
  input : List Char
  tokens : List Token
  tokenBuffer : List Char
  stack : List (Char × Char × List Token)
  position : Nat
  line : Nat
  column : Nat
  inString : Bool
  stringDelimiter : Option Char
  opts : Options
  deriving Repr

namespace Tokenizer

/-- `new Tokenizer(input, options)`. -/
def initSt (input : String) (opts : Options) : St :=
  { input := input.data, tokens := [], tokenBuffer := [], stack := []
    position := 0, line := 1, column := 1
    inString := false, stringDelimiter := none, opts := opts }

/-- `#error(message)`: the context window is
`input.slice(max(0, position-20), min(length, position+20))` and the caret
sits `position - start` characters into it. -/
def mkErr (s : St) (k : ErrKind) : Err :=
  let start := s.position - 20
  let stop := min s.input.length (s.position + 20)
  { kind := k, position := s.position, line := s.line, column := s.column
    context := (s.input.take stop).drop start
    pointer := s.position - start }

/-- `#addToken(token)`: push into the current block's children if a block is
open, else into the top-level token list. -/
def addTok (t : Token) (s : St) : St :=
  match s.stack with
  | (op, cl, ch) :: rest => { s with stack := (op, cl, ch ++ [t]) :: rest }
  | [] => { s with tokens := s.tokens ++ [t] }

/-- `#finishToken(type)`: emit the buffer as a token of the given type when it
is non-empty, and clear it. -/
def finishToken (ty : String) (s : St) : St :=
  if s.tokenBuffer.isEmpty then s
  else { addTok (Token.atom ty ⟨s.tokenBuffer⟩ none) s with tokenBuffer := [] }

/-- `#flushBuffer()`: classify a non-empty buffer as a number (all characters
in `[0-9.]`, at most one dot — more than one is the malformed-number error) or
else as an identifier. -/
def flushBuffer (s : St) : Except Err St :=
  if s.tokenBuffer.isEmpty then .ok s
  else if s.tokenBuffer.all (fun c => c.isDigit || c == '.') then
    if 1 < (s.tokenBuffer.filter (fun c => c == '.')).length then
      .error (mkErr s (.malformedNumber ⟨s.tokenBuffer⟩))
    else .ok (finishToken "number" s)
  else .ok (finishToken "identifier" s)

/-- `#handleStringContent(char)` — never throws. -/
def handleStringContent (char : Char) (s : St) : St :=
  if char == '\\' && s.position + 1 < s.input.length then
    { s with tokenBuffer := s.tokenBuffer ++ [char, s.input.getD (s.position + 1) ' ']
             position := s.position + 1 }
  else if some char == s.stringDelimiter then
    { finishToken "string" s with inString := false, stringDelimiter := none }
  else { s with tokenBuffer := s.tokenBuffer ++ [char] }

/-- `#startString(delimiter)`. -/
def startString (delim : Char) (s : St) : Except Err St := do
  let s ← flushBuffer s
  .ok { s with inString := true, stringDelimiter := some delim }

/-- `#checkComment()`: does the remaining input start with `//` or `/*`? -/
def checkComment (s : St) : Bool :=
  let r := (s.input.drop s.position).take 2
  r == ['/', '/'] || r == ['/', '*']

/-- `input.indexOf(c, start)` on a character. -/
def findCharFrom (l : List Char) (c : Char) (start : Nat) : Option Nat :=
  match (l.drop start).findIdx? (fun x => x == c) with
  | some j => some (start + j)
  | none => none

/-- First index of the two-character pattern `a b` in a list. -/
def findPair (a b : Char) : List Char → Option Nat
  | [] => none
  | [_] => none
  | x :: y :: rest =>
    if x == a && y == b then some 0
    else (findPair a b (y :: rest)).map (· + 1)

/-- `input.indexOf("ab", start)` (absolute index). -/
def findPairFrom (l : List Char) (a b : Char) (start : Nat) : Option Nat :=
  (findPair a b (l.drop start)).map (· + start)

/-- `comment.split('\n')`. -/
def splitNL : List Char → List (List Char)
  | [] => [[]]
  | c :: rest =>
    if c == '\n' then [] :: splitNL rest
    else
      match splitNL rest with
      | [] => [[c]]
      | h :: t => (c :: h) :: t

/-- `#handleComment()`. -/
def handleComment (s : St) : Except Err St := do
  let s ← flushBuffer s
  if (s.input.drop s.position).take 2 == ['/', '/'] then
    let commentEnd := (findCharFrom s.input '\n' s.position).getD s.input.length
    let comment := (s.input.drop s.position).take (commentEnd - s.position)
    let s := if s.opts.preserveComments then addTok (Token.atom "comment" ⟨comment⟩ none) s else s
    .ok { s with position := commentEnd - 1 }
  else
    match findPairFrom s.input '*' '/' (s.position + 2) with
    | none => .error (mkErr s .unterminatedComment)
    | some endIdx =>
      let comment := (s.input.drop s.position).take (endIdx + 2 - s.position)
      let s := if s.opts.preserveComments then addTok (Token.atom "comment" ⟨comment⟩ none) s else s
      let lines := splitNL comment
      let s := { s with line := s.line + (lines.length - 1) }
      let s := if 1 < lines.length then { s with column := (lines.getLastD []).length } else s
      .ok { s with position := endIdx + 1 }

/-- `#getLastMeaningfulToken()`: last token of the current block's children
(or of the top-level list) whose type is neither whitespace nor comment. -/
def getLastMeaningfulToken (s : St) : Option Token :=
  let ts := match s.stack with
    | (_, _, ch) :: _ => ch
    | [] => s.tokens
  ts.reverse.find? (fun t => !(tokType t == "whitespace") && !(tokType t == "comment"))

/-- `#checkRegex()`.  Note the JS operator precedence: the context is
`!lastToken || (typeOk && valueOk)`. -/
def checkRegex (s : St) : Bool :=
  if s.input.get? s.position != some '/' then false
  else
    let regexContext :=
      match getLastMeaningfulToken s with
      | none => true
      | some t =>
        (tokType t == "symbol" || tokType t == "keyword") &&
        (match tokValue t with
         | some v => ["=", "(", "[", ",", "return", "throw"].contains v
         | none => false)
    regexContext && decide (s.position + 1 < s.input.length) &&
      s.input.get? (s.position + 1) != some '/' &&
      s.input.get? (s.position + 1) != some '='

/-- The trailing-flag alphabet `/[gimsuvy]/`. -/
def regexFlags (l : List Char) : List Char :=
  l.takeWhile (fun c => ['g', 'i', 'm', 's', 'u', 'v', 'y'].contains c)

/-- The scanning loop inside `#handleRegex()`: `rest` is the input from `pos`
on; returns the accumulated literal (flags included) and the value of the JS
variable `pos` after the flag loop, or `none` for either unterminated case
(end of input, or a raw newline — both throw the same error at the unchanged
`#position`). -/
def regexScan : List Char → Nat → List Char → Bool → Bool → Option (List Char × Nat)
  | [], _, _, _, _ => none
  | c :: rest, pos, acc, escaped, inClass =>
    let acc := acc ++ [c]
    if escaped then regexScan rest (pos + 1) acc false inClass
    else if c == '\\' then regexScan rest (pos + 1) acc true inClass
    else if c == '[' && !inClass then regexScan rest (pos + 1) acc false true
    else if c == ']' && inClass then regexScan rest (pos + 1) acc false false
    else if c == '/' && !inClass then
      let fl := regexFlags rest
      some (acc ++ fl, pos + 1 + fl.length)
    else if c == '\n' then none
    else regexScan rest (pos + 1) acc false inClass

/-- `#handleRegex()`. -/
def handleRegex (s : St) : Except Err St := do
  let s ← flushBuffer s
  match regexScan (s.input.drop (s.position + 1)) (s.position + 1) ['/'] false false with
  | none => .error (mkErr s .unterminatedRegex)
  | some (val, pos) =>
    .ok { addTok (Token.atom "regex" ⟨val⟩ none) s with position := pos - 1 }

/-- `#updatePosition(char)` (called from the whitespace branch only). -/
def updatePosition (char : Char) (s : St) : St :=
  if char == '\n' then { s with line := s.line + 1, column := 1 }
  else if char == '\r' then
    let s := if s.input.get? (s.position + 1) == some '\n' then
      { s with position := s.position + 1 } else s
    { s with line := s.line + 1, column := 1 }
  else s

def threeCharOps : List (List Char) := [['=', '=', '='], ['!', '=', '=']]

def twoCharOps : List (List Char) :=
  [['=', '='], ['!', '='], ['<', '='], ['>', '='], ['=', '>'], ['&', '&'],
   ['|', '|'], ['+', '+'], ['-', '-'], ['+', '='], ['-', '='], ['*', '='], ['/', '=']]

/-- `#checkMultiCharOperator()`. -/
def checkMultiCharOperator (s : St) : Bool :=
  let r := (s.input.drop s.position).take 3
  threeCharOps.contains (r.take 3) || twoCharOps.contains (r.take 2)

/-- `#handleMultiCharOperator()`. -/
def handleMultiCharOperator (s : St) : Except Err St := do
  let s ← flushBuffer s
  let r := (s.input.drop s.position).take 3
  if threeCharOps.contains (r.take 3) then
    .ok { addTok (Token.atom "symbol" ⟨r.take 3⟩ none) s with position := s.position + 2 }
  else if twoCharOps.contains (r.take 2) then
    .ok { addTok (Token.atom "symbol" ⟨r.take 2⟩ none) s with position := s.position + 1 }
  else .ok s

/-- `#startBlock(char)`.  The JS code inserts the (still mutable) block object
into its parent here; in the zipper embedding the finished block is appended
to the parent by `finishBlock` instead, which produces the same final tree. -/
def startBlock (char : Char) (s : St) : Except Err St := do
  let s ← flushBuffer s
  let closer := if char == '[' then ']' else if char == '{' then '}' else ')'
  .ok { s with stack := (char, closer, []) :: s.stack }

/-- `#finishBlock(char)`. -/
def finishBlock (char : Char) (s : St) : Except Err St := do
  let s ← flushBuffer s
  match s.stack with
  | [] => .error (mkErr s (.unbalancedCloser char))
  | (op, cl, ch) :: rest =>
    if cl != char then .error (mkErr s (.mismatchedBracket cl char))
    else .ok (addTok (Token.block op cl ch) { s with stack := rest })

/-- The JS `\s` character class, restricted to ASCII. -/
def jsIsSpace (c : Char) : Bool :=
  [' ', '\t', '\n', '\r', '\x0b', '\x0c'].contains c

/-- `/[a-zA-Z#._$-]/`. -/
def isIdentChar (c : Char) : Bool :=
  c.isAlpha || ['#', '.', '_', '$', '-'].contains c

/-- The single-character symbol set `'+-*/:;,=<>!&|%^~?'`. -/
def isSingleSymbol (c : Char) : Bool :=
  ['+', '-', '*', '/', ':', ';', ',', '=', '<', '>', '!', '&', '|', '%', '^', '~', '?'].contains c

/-- One iteration of the `while` loop of `tokenize()` (dispatch on the current
character, then the loop footer `position++` / conditional `column++`). -/
def step (s : St) : Except Err St := do
  let char := s.input.getD s.position ' '
  let s' ←
    if s.inString then .ok (handleStringContent char s)
    else if checkComment s then handleComment s
    else if s.opts.allowRegex && checkRegex s then handleRegex s
    else if char == '`' || char == '\'' || char == '"' then startString char s
    else if jsIsSpace char then do
      let s ← flushBuffer s
      let s := if s.opts.preserveWhitespace then
        addTok (Token.atom "whitespace" ⟨[char]⟩ none) s else s
      .ok (updatePosition char s)
    else if char.isDigit ||
        (char == '.' && (s.input.getD (s.position + 1) ' ').isDigit &&
          decide (s.position + 1 < s.input.length)) then
      .ok { s with tokenBuffer := s.tokenBuffer ++ [char] }
    else if isIdentChar char then
      .ok { s with tokenBuffer := s.tokenBuffer ++ [char] }
    else if checkMultiCharOperator s then handleMultiCharOperator s
    else if isSingleSymbol char then do
      let s ← flushBuffer s
      .ok (addTok (Token.atom "symbol" ⟨[char]⟩ none) s)
    else if char == '[' || char == '{' || char == '(' then startBlock char s
    else if char == ']' || char == '}' || char == ')' then finishBlock char s
    else .error (mkErr s (.unexpectedChar char))
  let s' := { s' with position := s'.position + 1 }
  .ok (if !(char == '\n') && !(char == '\r') then { s' with column := s'.column + 1 } else s')

/-- The `while (position < length)` loop, indexed by fuel.  Fuel
`input.length + 1` always suffices since every `step` advances `position`. -/
def loop : Nat → St → Except Err St
  | fuel, s =>
    if s.position < s.input.length then
      match fuel with
      | 0 => .error (mkErr s .outOfFuel)
      | f + 1 => step s >>= loop f
    else .ok s

/-- The epilogue of `tokenize()`: the final `#flushBuffer()`, the
unclosed-block check, the unclosed-string check, and the returned
`#currentBlock || #tokens` (on the success path the stack is empty, so
`#currentBlock` is null and `#tokens` is returned). -/
def finish (s : St) : Except Err (List Token × St) := do
  let s ← flushBuffer s
  match s.stack with
  | (op, _, _) :: _ => .error (mkErr s (.unclosedBlock op))
  | [] =>
    if s.inString then .error (mkErr s (.unclosedString s.stringDelimiter))
    else .ok (s.tokens, s)

/-- `tokenize()`: returns the token list together with the instance state it
leaves behind (the JS method mutates `this`). -/
def tokenize (s : St) : Except Err (List Token × St) := do
  let s ← loop (s.input.length + 1) s
  finish s

/-- Construct an instance on `input` with `opts` and call `tokenize()`,
keeping only the token list. -/
def run (opts : Options) (input : String) : Except Err (List Token) :=
  (tokenize (initSt input opts)).map Prod.fst

mutual

/-- The body of `filterRecursive` of `filter(type)` applied to one token:
returns whether the `tokens.filter` predicate keeps the token, together with
the token's state after the predicate ran (the predicate assigns
`token.children = filterRecursive(token.children)` on every block it reaches
whose type is not the requested one, mutating the block in place). -/
def filterTok (ty : String) : Token → Bool × Token
  | .atom t v p => (t == ty, .atom t v p)
  | .block op cl ch =>
    if "block" == ty then (true, .block op cl ch)
    else
      let ch2 := filterList ty ch
      (decide (0 < ch2.length), .block op cl ch2)

/-- `filterRecursive(tokens)`: the kept tokens, each in its post-predicate
state. -/
def filterList (ty : String) : List Token → List Token
  | [] => []
  | t :: rest =>
    let (keep, t2) := filterTok ty t
    if keep then t2 :: filterList ty rest else filterList ty rest

end

/-- The in-place effect of `filterRecursive` on a token array it traversed:
every element was passed to the predicate, so every element is replaced by its
post-predicate state (droppping none). -/
def filterPost (ty : String) (ts : List Token) : List Token :=
  ts.map (fun t => (filterTok ty t).2)

/-- The public method `filter(type)`: returns the filtered view of
`#currentBlock?.children ?? #tokens` and the instance state after the
traversal's in-place mutation of block children. -/
def filterOp (ty : String) (s : St) : List Token × St :=
  match s.stack with
  | (op, cl, ch) :: rest =>
    (filterList ty ch, { s with stack := (op, cl, filterPost ty ch) :: rest })
  | [] => (filterList ty s.tokens, { s with tokens := filterPost ty s.tokens })

/-- A raw, still-escaped string body for delimiter `q`: a sequence of plain
characters (neither the delimiter nor a backslash) and two-character escape
sequences (a backslash followed by any character, kept verbatim). -/
inductive BodyOk (q : Char) : List Char → Prop where
  | nil : BodyOk q []
  | plain (c : Char) (rest : List Char) :
      c ≠ q → c ≠ '\\' → BodyOk q rest → BodyOk q (c :: rest)
  | escape (c : Char) (rest : List Char) :
      BodyOk q rest → BodyOk q ('\\' :: c :: rest)

end Tokenizer

open Tokenizer

theorem exc_bind_ok {α β : Type} (a : α) (f : α → Except Err β) :
    (Except.ok a >>= f) = f a := rfl

theorem exc_bind_error {α β : Type} (e : Err) (f : α → Except Err β) :
    ((Except.error e : Except Err α) >>= f) = Except.error e := rfl

@[simp] theorem addTok_input (t : Token) (s : St) : (addTok t s).input = s.input := by
  unfold addTok; rcases s.stack with _ | ⟨⟨op, cl, ch⟩, rest⟩ <;> rfl

@[simp] theorem addTok_position (t : Token) (s : St) : (addTok t s).position = s.position := by
  unfold addTok; rcases s.stack with _ | ⟨⟨op, cl, ch⟩, rest⟩ <;> rfl

@[simp] theorem addTok_line (t : Token) (s : St) : (addTok t s).line = s.line := by
  unfold addTok; rcases s.stack with _ | ⟨⟨op, cl, ch⟩, rest⟩ <;> rfl

@[simp] theorem addTok_column (t : Token) (s : St) : (addTok t s).column = s.column := by
  unfold addTok; rcases s.stack with _ | ⟨⟨op, cl, ch⟩, rest⟩ <;> rfl

@[simp] theorem addTok_tokenBuffer (t : Token) (s : St) :
    (addTok t s).tokenBuffer = s.tokenBuffer := by
  unfold addTok; rcases s.stack with _ | ⟨⟨op, cl, ch⟩, rest⟩ <;> rfl

@[simp] theorem addTok_inString (t : Token) (s : St) : (addTok t s).inString = s.inString := by
  unfold addTok; rcases s.stack with _ | ⟨⟨op, cl, ch⟩, rest⟩ <;> rfl

@[simp] theorem addTok_stringDelimiter (t : Token) (s : St) :
    (addTok t s).stringDelimiter = s.stringDelimiter := by
  unfold addTok; rcases s.stack with _ | ⟨⟨op, cl, ch⟩, rest⟩ <;> rfl

@[simp] theorem addTok_opts (t : Token) (s : St) : (addTok t s).opts = s.opts := by
  unfold addTok; rcases s.stack with _ | ⟨⟨op, cl, ch⟩, rest⟩ <;> rfl

theorem addTok_stack_nil (t : Token) (s : St) (h : s.stack = []) :
    (addTok t s).stack = [] ∧ (addTok t s).tokens = s.tokens ++ [t] := by
  unfold addTok; rw [h]; exact ⟨rfl, rfl⟩

theorem addTok_stack_empty_iff (t : Token) (s : St) :
    (addTok t s).stack = [] ↔ s.stack = [] := by
  unfold addTok; rcases hs : s.stack with _ | ⟨⟨op, cl, ch⟩, rest⟩ <;> simp

/-- Fields of the state `#flushBuffer()` leaves behind on its success path:
the buffer is cleared and everything except the token containers is kept. -/
theorem flushBuffer_ok_fields {s s2 : St} (h : flushBuffer s = .ok s2) :
    s2.input = s.input ∧ s2.position = s.position ∧ s2.line = s.line ∧
    s2.column = s.column ∧ s2.inString = s.inString ∧
    s2.stringDelimiter = s.stringDelimiter ∧ s2.opts = s.opts ∧
    s2.tokenBuffer = [] ∧ (s2.stack = [] ↔ s.stack = []) := by
  unfold flushBuffer at h
  split at h
  · rename_i hemp
    cases h
    refine ⟨rfl, rfl, rfl, rfl, rfl, rfl, rfl, ?_, Iff.rfl⟩
    exact List.isEmpty_iff.mp hemp
  · rename_i hemp
    split at h
    · split at h
      · cases h
      · cases h
        unfold finishToken
        rw [if_neg (by simp [hemp])]
        simp [addTok_stack_empty_iff]
    · cases h
      unfold finishToken
      rw [if_neg (by simp [hemp])]
      simp [addTok_stack_empty_iff]

/-- When the fueled loop returns normally, the final position has reached the
end of the input (the only normal exit is the failed loop guard). -/
theorem loop_step {f : Nat} {s s1 : St} (hlt : s.position < s.input.length)
    (hstep : step s = Except.ok s1) {r : Except Err St} (h : loop f s1 = r) :
    loop (f + 1) s = r := by
  change (if s.position < s.input.length then step s >>= loop f else Except.ok s) = r
  rw [if_pos hlt, hstep, exc_bind_ok, h]

theorem loop_step_err {f : Nat} {s : St} {e : Err} (hlt : s.position < s.input.length)
    (hstep : step s = Except.error e) : loop (f + 1) s = .error e := by
  change (if s.position < s.input.length then step s >>= loop f else Except.ok s) = _
  rw [if_pos hlt, hstep, exc_bind_error]

theorem loop_done {f : Nat} {s : St} (h : ¬ s.position < s.input.length) :
    loop f s = .ok s := by
  cases f with
  | zero => rw [loop.eq_1, if_neg h]
  | succ g =>
    change (if s.position < s.input.length then step s >>= loop g else Except.ok s) = _
    rw [if_neg h]

theorem loop_ok_position {fuel : Nat} {s s2 : St} (h : loop fuel s = .ok s2) :
    s2.input.length ≤ s2.position := by
  induction fuel generalizing s with
  | zero =>
    rw [loop.eq_1] at h
    split at h
    · exact absurd h (by simp)
    · cases h; omega
  | succ f ih =>
    change (if s.position < s.input.length then step s >>= loop f else Except.ok s)
        = Except.ok s2 at h
    split at h
    · cases hstep : step s with
      | error e => rw [hstep, exc_bind_error] at h; cases h
      | ok s1 => rw [hstep, exc_bind_ok] at h; exact ih h
    · cases h; omega


/-- Concrete evaluations of the scanner, one `step` at a time (each step is a
single cheap definitional reduction); `loop_step` chains them into the full
`tokenize()` run for the scenario inputs used by the claims below. -/
theorem runEvalA :
    run (defaultOptions) "x" = Except.ok [TokTok.Token.atom "identifier" "x" none] := by
  have eA0 : step ({ input := ['x'], tokens := [], tokenBuffer := [], stack := [], position := 0, line := 1, column := 1, inString := false, stringDelimiter := none, opts := { trackPosition := true, preserveWhitespace := false, preserveComments := true, allowRegex := true } }) = Except.ok ({ input := ['x'], tokens := [], tokenBuffer := ['x'], stack := [], position := 1, line := 1, column := 2, inString := false, stringDelimiter := none, opts := { trackPosition := true, preserveWhitespace := false, preserveComments := true, allowRegex := true } }) := by rfl
  have hloopA : loop 2 ({ input := ['x'], tokens := [], tokenBuffer := [], stack := [], position := 0, line := 1, column := 1, inString := false, stringDelimiter := none, opts := { trackPosition := true, preserveWhitespace := false, preserveComments := true, allowRegex := true } }) = Except.ok ({ input := ['x'], tokens := [], tokenBuffer := ['x'], stack := [], position := 1, line := 1, column := 2, inString := false, stringDelimiter := none, opts := { trackPosition := true, preserveWhitespace := false, preserveComments := true, allowRegex := true } }) :=
    loop_step (by decide) eA0 (loop_done (by decide))
  have htokA : tokenize ({ input := ['x'], tokens := [], tokenBuffer := [], stack := [], position := 0, line := 1, column := 1, inString := false, stringDelimiter := none, opts := { trackPosition := true, preserveWhitespace := false, preserveComments := true, allowRegex := true } }) = Except.ok ([TokTok.Token.atom "identifier" "x" none], { input := ['x'], tokens := [TokTok.Token.atom "identifier" "x" none], tokenBuffer := [], stack := [], position := 1, line := 1, column := 2, inString := false, stringDelimiter := none, opts := { trackPosition := true, preserveWhitespace := false, preserveComments := true, allowRegex := true } }) := by
    change loop 2 ({ input := ['x'], tokens := [], tokenBuffer := [], stack := [], position := 0, line := 1, column := 1, inString := false, stringDelimiter := none, opts := { trackPosition := true, preserveWhitespace := false, preserveComments := true, allowRegex := true } }) >>= finish = _
    rw [hloopA, exc_bind_ok]
    rfl
  show (tokenize (initSt "x" (defaultOptions))).map Prod.fst = _
  rw [show initSt "x" (defaultOptions) = ({ input := ['x'], tokens := [], tokenBuffer := [], stack := [], position := 0, line := 1, column := 1, inString := false, stringDelimiter := none, opts := { trackPosition := true, preserveWhitespace := false, preserveComments := true, allowRegex := true } } : St) from rfl, htokA]
  rfl

theorem runEvalB :
    run (defaultOptions) "[1,2,3)" = Except.error { kind := TokTok.ErrKind.mismatchedBracket ']' ')', position := 6, line := 1, column := 7, context := ['[', '1', ',', '2', ',', '3', ')'], pointer := 6 } := by
  have eB0 : step ({ input := ['[', '1', ',', '2', ',', '3', ')'], tokens := [], tokenBuffer := [], stack := [], position := 0, line := 1, column := 1, inString := false, stringDelimiter := none, opts := { trackPosition := true, preserveWhitespace := false, preserveComments := true, allowRegex := true } }) = Except.ok ({ input := ['[', '1', ',', '2', ',', '3', ')'], tokens := [], tokenBuffer := [], stack := [('[', ']', [])], position := 1, line := 1, column := 2, inString := false, stringDelimiter := none, opts := { trackPosition := true, preserveWhitespace := false, preserveComments := true, allowRegex := true } }) := by rfl
  have eB1 : step ({ input := ['[', '1', ',', '2', ',', '3', ')'], tokens := [], tokenBuffer := [], stack := [('[', ']', [])], position := 1, line := 1, column := 2, inString := false, stringDelimiter := none, opts := { trackPosition := true, preserveWhitespace := false, preserveComments := true, allowRegex := true } }) = Except.ok ({ input := ['[', '1', ',', '2', ',', '3', ')'], tokens := [], tokenBuffer := ['1'], stack := [('[', ']', [])], position := 2, line := 1, column := 3, inString := false, stringDelimiter := none, opts := { trackPosition := true, preserveWhitespace := false, preserveComments := true, allowRegex := true } }) := by rfl
  have eB2 : step ({ input := ['[', '1', ',', '2', ',', '3', ')'], tokens := [], tokenBuffer := ['1'], stack := [('[', ']', [])], position := 2, line := 1, column := 3, inString := false, stringDelimiter := none, opts := { trackPosition := true, preserveWhitespace := false, preserveComments := true, allowRegex := true } }) = Except.ok ({ input := ['[', '1', ',', '2', ',', '3', ')'], tokens := [], tokenBuffer := [], stack := [('[', ']', [TokTok.Token.atom "number" "1" none, TokTok.Token.atom "symbol" "," none])], position := 3, line := 1, column := 4, inString := false, stringDelimiter := none, opts := { trackPosition := true, preserveWhitespace := false, preserveComments := true, allowRegex := true } }) := by rfl
  have eB3 : step ({ input := ['[', '1', ',', '2', ',', '3', ')'], tokens := [], tokenBuffer := [], stack := [('[', ']', [TokTok.Token.atom "number" "1" none, TokTok.Token.atom "symbol" "," none])], position := 3, line := 1, column := 4, inString := false, stringDelimiter := none, opts := { trackPosition := true, preserveWhitespace := false, preserveComments := true, allowRegex := true } }) = Except.ok ({ input := ['[', '1', ',', '2', ',', '3', ')'], tokens := [], tokenBuffer := ['2'], stack := [('[', ']', [TokTok.Token.atom "number" "1" none, TokTok.Token.atom "symbol" "," none])], position := 4, line := 1, column := 5, inString := false, stringDelimiter := none, opts := { trackPosition := true, preserveWhitespace := false, preserveComments := true, allowRegex := true } }) := by rfl
  have eB4 : step ({ input := ['[', '1', ',', '2', ',', '3', ')'], tokens := [], tokenBuffer := ['2'], stack := [('[', ']', [TokTok.Token.atom "number" "1" none, TokTok.Token.atom "symbol" "," none])], position := 4, line := 1, column := 5, inString := false, stringDelimiter := none, opts := { trackPosition := true, preserveWhitespace := false, preserveComments := true, allowRegex := true } }) = Except.ok ({ input := ['[', '1', ',', '2', ',', '3', ')'], tokens := [], tokenBuffer := [], stack := [('[', ']', [TokTok.Token.atom "number" "1" none, TokTok.Token.atom "symbol" "," none, TokTok.Token.atom "number" "2" none, TokTok.Token.atom "symbol" "," none])], position := 5, line := 1, column := 6, inString := false, stringDelimiter := none, opts := { trackPosition := true, preserveWhitespace := false, preserveComments := true, allowRegex := true } }) := by rfl
  have eB5 : step ({ input := ['[', '1', ',', '2', ',', '3', ')'], tokens := [], tokenBuffer := [], stack := [('[', ']', [TokTok.Token.atom "number" "1" none, TokTok.Token.atom "symbol" "," none, TokTok.Token.atom "number" "2" none, TokTok.Token.atom "symbol" "," none])], position := 5, line := 1, column := 6, inString := false, stringDelimiter := none, opts := { trackPosition := true, preserveWhitespace := false, preserveComments := true, allowRegex := true } }) = Except.ok ({ input := ['[', '1', ',', '2', ',', '3', ')'], tokens := [], tokenBuffer := ['3'], stack := [('[', ']', [TokTok.Token.atom "number" "1" none, TokTok.Token.atom "symbol" "," none, TokTok.Token.atom "number" "2" none, TokTok.Token.atom "symbol" "," none])], position := 6, line := 1, column := 7, inString := false, stringDelimiter := none, opts := { trackPosition := true, preserveWhitespace := false, preserveComments := true, allowRegex := true } }) := by rfl
  have eB6 : step ({ input := ['[', '1', ',', '2', ',', '3', ')'], tokens := [], tokenBuffer := ['3'], stack := [('[', ']', [TokTok.Token.atom "number" "1" none, TokTok.Token.atom "symbol" "," none, TokTok.Token.atom "number" "2" none, TokTok.Token.atom "symbol" "," none])], position := 6, line := 1, column := 7, inString := false, stringDelimiter := none, opts := { trackPosition := true, preserveWhitespace := false, preserveComments := true, allowRegex := true } }) = Except.error ({ kind := TokTok.ErrKind.mismatchedBracket ']' ')', position := 6, line := 1, column := 7, context := ['[', '1', ',', '2', ',', '3', ')'], pointer := 6 }) := by rfl
  have hloopB : loop 8 ({ input := ['[', '1', ',', '2', ',', '3', ')'], tokens := [], tokenBuffer := [], stack := [], position := 0, line := 1, column := 1, inString := false, stringDelimiter := none, opts := { trackPosition := true, preserveWhitespace := false, preserveComments := true, allowRegex := true } }) = Except.error ({ kind := TokTok.ErrKind.mismatchedBracket ']' ')', position := 6, line := 1, column := 7, context := ['[', '1', ',', '2', ',', '3', ')'], pointer := 6 }) :=
    loop_step (by decide) eB0 (loop_step (by decide) eB1 (loop_step (by decide) eB2 (loop_step (by decide) eB3 (loop_step (by decide) eB4 (loop_step (by decide) eB5 (loop_step_err (by decide) eB6))))))
  have htokB : tokenize ({ input := ['[', '1', ',', '2', ',', '3', ')'], tokens := [], tokenBuffer := [], stack := [], position := 0, line := 1, column := 1, inString := false, stringDelimiter := none, opts := { trackPosition := true, preserveWhitespace := false, preserveComments := true, allowRegex := true } }) = Except.error { kind := TokTok.ErrKind.mismatchedBracket ']' ')', position := 6, line := 1, column := 7, context := ['[', '1', ',', '2', ',', '3', ')'], pointer := 6 } := by
    change loop 8 ({ input := ['[', '1', ',', '2', ',', '3', ')'], tokens := [], tokenBuffer := [], stack := [], position := 0, line := 1, column := 1, inString := false, stringDelimiter := none, opts := { trackPosition := true, preserveWhitespace := false, preserveComments := true, allowRegex := true } }) >>= finish = _
    rw [hloopB, exc_bind_error]
  show (tokenize (initSt "[1,2,3)" (defaultOptions))).map Prod.fst = _
  rw [show initSt "[1,2,3)" (defaultOptions) = ({ input := ['[', '1', ',', '2', ',', '3', ')'], tokens := [], tokenBuffer := [], stack := [], position := 0, line := 1, column := 1, inString := false, stringDelimiter := none, opts := { trackPosition := true, preserveWhitespace := false, preserveComments := true, allowRegex := true } } : St) from rfl, htokB]
  rfl

theorem runEvalC :
    run ({ defaultOptions with preserveComments := false }) "/* a */x" = Except.ok [TokTok.Token.atom "identifier" "x" none] := by
  have eC0 : step ({ input := ['/', '*', ' ', 'a', ' ', '*', '/', 'x'], tokens := [], tokenBuffer := [], stack := [], position := 0, line := 1, column := 1, inString := false, stringDelimiter := none, opts := { trackPosition := true, preserveWhitespace := false, preserveComments := false, allowRegex := true } }) = Except.ok ({ input := ['/', '*', ' ', 'a', ' ', '*', '/', 'x'], tokens := [], tokenBuffer := [], stack := [], position := 7, line := 1, column := 2, inString := false, stringDelimiter := none, opts := { trackPosition := true, preserveWhitespace := false, preserveComments := false, allowRegex := true } }) := by rfl
  have eC1 : step ({ input := ['/', '*', ' ', 'a', ' ', '*', '/', 'x'], tokens := [], tokenBuffer := [], stack := [], position := 7, line := 1, column := 2, inString := false, stringDelimiter := none, opts := { trackPosition := true, preserveWhitespace := false, preserveComments := false, allowRegex := true } }) = Except.ok ({ input := ['/', '*', ' ', 'a', ' ', '*', '/', 'x'], tokens := [], tokenBuffer := ['x'], stack := [], position := 8, line := 1, column := 3, inString := false, stringDelimiter := none, opts := { trackPosition := true, preserveWhitespace := false, preserveComments := false, allowRegex := true } }) := by rfl
  have hloopC : loop 9 ({ input := ['/', '*', ' ', 'a', ' ', '*', '/', 'x'], tokens := [], tokenBuffer := [], stack := [], position := 0, line := 1, column := 1, inString := false, stringDelimiter := none, opts := { trackPosition := true, preserveWhitespace := false, preserveComments := false, allowRegex := true } }) = Except.ok ({ input := ['/', '*', ' ', 'a', ' ', '*', '/', 'x'], tokens := [], tokenBuffer := ['x'], stack := [], position := 8, line := 1, column := 3, inString := false, stringDelimiter := none, opts := { trackPosition := true, preserveWhitespace := false, preserveComments := false, allowRegex := true } }) :=
    loop_step (by decide) eC0 (loop_step (by decide) eC1 (loop_done (by decide)))
  have htokC : tokenize ({ input := ['/', '*', ' ', 'a', ' ', '*', '/', 'x'], tokens := [], tokenBuffer := [], stack := [], position := 0, line := 1, column := 1, inString := false, stringDelimiter := none, opts := { trackPosition := true, preserveWhitespace := false, preserveComments := false, allowRegex := true } }) = Except.ok ([TokTok.Token.atom "identifier" "x" none], { input := ['/', '*', ' ', 'a', ' ', '*', '/', 'x'], tokens := [TokTok.Token.atom "identifier" "x" none], tokenBuffer := [], stack := [], position := 8, line := 1, column := 3, inString := false, stringDelimiter := none, opts := { trackPosition := true, preserveWhitespace := false, preserveComments := false, allowRegex := true } }) := by
    change loop 9 ({ input := ['/', '*', ' ', 'a', ' ', '*', '/', 'x'], tokens := [], tokenBuffer := [], stack := [], position := 0, line := 1, column := 1, inString := false, stringDelimiter := none, opts := { trackPosition := true, preserveWhitespace := false, preserveComments := false, allowRegex := true } }) >>= finish = _
    rw [hloopC, exc_bind_ok]
    rfl
  show (tokenize (initSt "/* a */x" ({ defaultOptions with preserveComments := false }))).map Prod.fst = _
  rw [show initSt "/* a */x" ({ defaultOptions with preserveComments := false }) = ({ input := ['/', '*', ' ', 'a', ' ', '*', '/', 'x'], tokens := [], tokenBuffer := [], stack := [], position := 0, line := 1, column := 1, inString := false, stringDelimiter := none, opts := { trackPosition := true, preserveWhitespace := false, preserveComments := false, allowRegex := true } } : St) from rfl, htokC]
  rfl

theorem runEvalD :
    run (defaultOptions) "\"a\"" = Except.ok [TokTok.Token.atom "string" "a" none] := by
  have eD0 : step ({ input := ['\"', 'a', '\"'], tokens := [], tokenBuffer := [], stack := [], position := 0, line := 1, column := 1, inString := false, stringDelimiter := none, opts := { trackPosition := true, preserveWhitespace := false, preserveComments := true, allowRegex := true } }) = Except.ok ({ input := ['\"', 'a', '\"'], tokens := [], tokenBuffer := [], stack := [], position := 1, line := 1, column := 2, inString := true, stringDelimiter := some '\"', opts := { trackPosition := true, preserveWhitespace := false, preserveComments := true, allowRegex := true } }) := by rfl
  have eD1 : step ({ input := ['\"', 'a', '\"'], tokens := [], tokenBuffer := [], stack := [], position := 1, line := 1, column := 2, inString := true, stringDelimiter := some '\"', opts := { trackPosition := true, preserveWhitespace := false, preserveComments := true, allowRegex := true } }) = Except.ok ({ input := ['\"', 'a', '\"'], tokens := [], tokenBuffer := ['a'], stack := [], position := 2, line := 1, column := 3, inString := true, stringDelimiter := some '\"', opts := { trackPosition := true, preserveWhitespace := false, preserveComments := true, allowRegex := true } }) := by rfl
  have eD2 : step ({ input := ['\"', 'a', '\"'], tokens := [], tokenBuffer := ['a'], stack := [], position := 2, line := 1, column := 3, inString := true, stringDelimiter := some '\"', opts := { trackPosition := true, preserveWhitespace := false, preserveComments := true, allowRegex := true } }) = Except.ok ({ input := ['\"', 'a', '\"'], tokens := [TokTok.Token.atom "string" "a" none], tokenBuffer := [], stack := [], position := 3, line := 1, column := 4, inString := false, stringDelimiter := none, opts := { trackPosition := true, preserveWhitespace := false, preserveComments := true, allowRegex := true } }) := by rfl
  have hloopD : loop 4 ({ input := ['\"', 'a', '\"'], tokens := [], tokenBuffer := [], stack := [], position := 0, line := 1, column := 1, inString := false, stringDelimiter := none, opts := { trackPosition := true, preserveWhitespace := false, preserveComments := true, allowRegex := true } }) = Except.ok ({ input := ['\"', 'a', '\"'], tokens := [TokTok.Token.atom "string" "a" none], tokenBuffer := [], stack := [], position := 3, line := 1, column := 4, inString := false, stringDelimiter := none, opts := { trackPosition := true, preserveWhitespace := false, preserveComments := true, allowRegex := true } }) :=
    loop_step (by decide) eD0 (loop_step (by decide) eD1 (loop_step (by decide) eD2 (loop_done (by decide))))
  have htokD : tokenize ({ input := ['\"', 'a', '\"'], tokens := [], tokenBuffer := [], stack := [], position := 0, line := 1, column := 1, inString := false, stringDelimiter := none, opts := { trackPosition := true, preserveWhitespace := false, preserveComments := true, allowRegex := true } }) = Except.ok ([TokTok.Token.atom "string" "a" none], { input := ['\"', 'a', '\"'], tokens := [TokTok.Token.atom "string" "a" none], tokenBuffer := [], stack := [], position := 3, line := 1, column := 4, inString := false, stringDelimiter := none, opts := { trackPosition := true, preserveWhitespace := false, preserveComments := true, allowRegex := true } }) := by
    change loop 4 ({ input := ['\"', 'a', '\"'], tokens := [], tokenBuffer := [], stack := [], position := 0, line := 1, column := 1, inString := false, stringDelimiter := none, opts := { trackPosition := true, preserveWhitespace := false, preserveComments := true, allowRegex := true } }) >>= finish = _
    rw [hloopD, exc_bind_ok]
    rfl
  show (tokenize (initSt "\"a\"" (defaultOptions))).map Prod.fst = _
  rw [show initSt "\"a\"" (defaultOptions) = ({ input := ['\"', 'a', '\"'], tokens := [], tokenBuffer := [], stack := [], position := 0, line := 1, column := 1, inString := false, stringDelimiter := none, opts := { trackPosition := true, preserveWhitespace := false, preserveComments := true, allowRegex := true } } : St) from rfl, htokD]
  rfl

theorem runEvalE :
    run (defaultOptions) "return /a/;" = Except.ok [TokTok.Token.atom "identifier" "return" none, TokTok.Token.atom "symbol" "/" none, TokTok.Token.atom "identifier" "a" none, TokTok.Token.atom "symbol" "/" none, TokTok.Token.atom "symbol" ";" none] := by
  have eE0 : step ({ input := ['r', 'e', 't', 'u', 'r', 'n', ' ', '/', 'a', '/', ';'], tokens := [], tokenBuffer := [], stack := [], position := 0, line := 1, column := 1, inString := false, stringDelimiter := none, opts := { trackPosition := true, preserveWhitespace := false, preserveComments := true, allowRegex := true } }) = Except.ok ({ input := ['r', 'e', 't', 'u', 'r', 'n', ' ', '/', 'a', '/', ';'], tokens := [], tokenBuffer := ['r'], stack := [], position := 1, line := 1, column := 2, inString := false, stringDelimiter := none, opts := { trackPosition := true, preserveWhitespace := false, preserveComments := true, allowRegex := true } }) := by rfl
  have eE1 : step ({ input := ['r', 'e', 't', 'u', 'r', 'n', ' ', '/', 'a', '/', ';'], tokens := [], tokenBuffer := ['r'], stack := [], position := 1, line := 1, column := 2, inString := false, stringDelimiter := none, opts := { trackPosition := true, preserveWhitespace := false, preserveComments := true, allowRegex := true } }) = Except.ok ({ input := ['r', 'e', 't', 'u', 'r', 'n', ' ', '/', 'a', '/', ';'], tokens := [], tokenBuffer := ['r', 'e'], stack := [], position := 2, line := 1, column := 3, inString := false, stringDelimiter := none, opts := { trackPosition := true, preserveWhitespace := false, preserveComments := true, allowRegex := true } }) := by rfl
  have eE2 : step ({ input := ['r', 'e', 't', 'u', 'r', 'n', ' ', '/', 'a', '/', ';'], tokens := [], tokenBuffer := ['r', 'e'], stack := [], position := 2, line := 1, column := 3, inString := false, stringDelimiter := none, opts := { trackPosition := true, preserveWhitespace := false, preserveComments := true, allowRegex := true } }) = Except.ok ({ input := ['r', 'e', 't', 'u', 'r', 'n', ' ', '/', 'a', '/', ';'], tokens := [], tokenBuffer := ['r', 'e', 't'], stack := [], position := 3, line := 1, column := 4, inString := false, stringDelimiter := none, opts := { trackPosition := true, preserveWhitespace := false, preserveComments := true, allowRegex := true } }) := by rfl
  have eE3 : step ({ input := ['r', 'e', 't', 'u', 'r', 'n', ' ', '/', 'a', '/', ';'], tokens := [], tokenBuffer := ['r', 'e', 't'], stack := [], position := 3, line := 1, column := 4, inString := false, stringDelimiter := none, opts := { trackPosition := true, preserveWhitespace := false, preserveComments := true, allowRegex := true } }) = Except.ok ({ input := ['r', 'e', 't', 'u', 'r', 'n', ' ', '/', 'a', '/', ';'], tokens := [], tokenBuffer := ['r', 'e', 't', 'u'], stack := [], position := 4, line := 1, column := 5, inString := false, stringDelimiter := none, opts := { trackPosition := true, preserveWhitespace := false, preserveComments := true, allowRegex := true } }) := by rfl
  have eE4 : step ({ input := ['r', 'e', 't', 'u', 'r', 'n', ' ', '/', 'a', '/', ';'], tokens := [], tokenBuffer := ['r', 'e', 't', 'u'], stack := [], position := 4, line := 1, column := 5, inString := false, stringDelimiter := none, opts := { trackPosition := true, preserveWhitespace := false, preserveComments := true, allowRegex := true } }) = Except.ok ({ input := ['r', 'e', 't', 'u', 'r', 'n', ' ', '/', 'a', '/', ';'], tokens := [], tokenBuffer := ['r', 'e', 't', 'u', 'r'], stack := [], position := 5, line := 1, column := 6, inString := false, stringDelimiter := none, opts := { trackPosition := true, preserveWhitespace := false, preserveComments := true, allowRegex := true } }) := by rfl
  have eE5 : step ({ input := ['r', 'e', 't', 'u', 'r', 'n', ' ', '/', 'a', '/', ';'], tokens := [], tokenBuffer := ['r', 'e', 't', 'u', 'r'], stack := [], position := 5, line := 1, column := 6, inString := false, stringDelimiter := none, opts := { trackPosition := true, preserveWhitespace := false, preserveComments := true, allowRegex := true } }) = Except.ok ({ input := ['r', 'e', 't', 'u', 'r', 'n', ' ', '/', 'a', '/', ';'], tokens := [], tokenBuffer := ['r', 'e', 't', 'u', 'r', 'n'], stack := [], position := 6, line := 1, column := 7, inString := false, stringDelimiter := none, opts := { trackPosition := true, preserveWhitespace := false, preserveComments := true, allowRegex := true } }) := by rfl
  have eE6 : step ({ input := ['r', 'e', 't', 'u', 'r', 'n', ' ', '/', 'a', '/', ';'], tokens := [], tokenBuffer := ['r', 'e', 't', 'u', 'r', 'n'], stack := [], position := 6, line := 1, column := 7, inString := false, stringDelimiter := none, opts := { trackPosition := true, preserveWhitespace := false, preserveComments := true, allowRegex := true } }) = Except.ok ({ input := ['r', 'e', 't', 'u', 'r', 'n', ' ', '/', 'a', '/', ';'], tokens := [TokTok.Token.atom "identifier" "return" none], tokenBuffer := [], stack := [], position := 7, line := 1, column := 8, inString := false, stringDelimiter := none, opts := { trackPosition := true, preserveWhitespace := false, preserveComments := true, allowRegex := true } }) := by rfl
  have eE7 : step ({ input := ['r', 'e', 't', 'u', 'r', 'n', ' ', '/', 'a', '/', ';'], tokens := [TokTok.Token.atom "identifier" "return" none], tokenBuffer := [], stack := [], position := 7, line := 1, column := 8, inString := false, stringDelimiter := none, opts := { trackPosition := true, preserveWhitespace := false, preserveComments := true, allowRegex := true } }) = Except.ok ({ input := ['r', 'e', 't', 'u', 'r', 'n', ' ', '/', 'a', '/', ';'], tokens := [TokTok.Token.atom "identifier" "return" none, TokTok.Token.atom "symbol" "/" none], tokenBuffer := [], stack := [], position := 8, line := 1, column := 9, inString := false, stringDelimiter := none, opts := { trackPosition := true, preserveWhitespace := false, preserveComments := true, allowRegex := true } }) := by rfl
  have eE8 : step ({ input := ['r', 'e', 't', 'u', 'r', 'n', ' ', '/', 'a', '/', ';'], tokens := [TokTok.Token.atom "identifier" "return" none, TokTok.Token.atom "symbol" "/" none], tokenBuffer := [], stack := [], position := 8, line := 1, column := 9, inString := false, stringDelimiter := none, opts := { trackPosition := true, preserveWhitespace := false, preserveComments := true, allowRegex := true } }) = Except.ok ({ input := ['r', 'e', 't', 'u', 'r', 'n', ' ', '/', 'a', '/', ';'], tokens := [TokTok.Token.atom "identifier" "return" none, TokTok.Token.atom "symbol" "/" none], tokenBuffer := ['a'], stack := [], position := 9, line := 1, column := 10, inString := false, stringDelimiter := none, opts := { trackPosition := true, preserveWhitespace := false, preserveComments := true, allowRegex := true } }) := by rfl
  have eE9 : step ({ input := ['r', 'e', 't', 'u', 'r', 'n', ' ', '/', 'a', '/', ';'], tokens := [TokTok.Token.atom "identifier" "return" none, TokTok.Token.atom "symbol" "/" none], tokenBuffer := ['a'], stack := [], position := 9, line := 1, column := 10, inString := false, stringDelimiter := none, opts := { trackPosition := true, preserveWhitespace := false, preserveComments := true, allowRegex := true } }) = Except.ok ({ input := ['r', 'e', 't', 'u', 'r', 'n', ' ', '/', 'a', '/', ';'], tokens := [TokTok.Token.atom "identifier" "return" none, TokTok.Token.atom "symbol" "/" none, TokTok.Token.atom "identifier" "a" none, TokTok.Token.atom "symbol" "/" none], tokenBuffer := [], stack := [], position := 10, line := 1, column := 11, inString := false, stringDelimiter := none, opts := { trackPosition := true, preserveWhitespace := false, preserveComments := true, allowRegex := true } }) := by rfl
  have eE10 : step ({ input := ['r', 'e', 't', 'u', 'r', 'n', ' ', '/', 'a', '/', ';'], tokens := [TokTok.Token.atom "identifier" "return" none, TokTok.Token.atom "symbol" "/" none, TokTok.Token.atom "identifier" "a" none, TokTok.Token.atom "symbol" "/" none], tokenBuffer := [], stack := [], position := 10, line := 1, column := 11, inString := false, stringDelimiter := none, opts := { trackPosition := true, preserveWhitespace := false, preserveComments := true, allowRegex := true } }) = Except.ok ({ input := ['r', 'e', 't', 'u', 'r', 'n', ' ', '/', 'a', '/', ';'], tokens := [TokTok.Token.atom "identifier" "return" none, TokTok.Token.atom "symbol" "/" none, TokTok.Token.atom "identifier" "a" none, TokTok.Token.atom "symbol" "/" none, TokTok.Token.atom "symbol" ";" none], tokenBuffer := [], stack := [], position := 11, line := 1, column := 12, inString := false, stringDelimiter := none, opts := { trackPosition := true, preserveWhitespace := false, preserveComments := true, allowRegex := true } }) := by rfl
  have hloopE : loop 12 ({ input := ['r', 'e', 't', 'u', 'r', 'n', ' ', '/', 'a', '/', ';'], tokens := [], tokenBuffer := [], stack := [], position := 0, line := 1, column := 1, inString := false, stringDelimiter := none, opts := { trackPosition := true, preserveWhitespace := false, preserveComments := true, allowRegex := true } }) = Except.ok ({ input := ['r', 'e', 't', 'u', 'r', 'n', ' ', '/', 'a', '/', ';'], tokens := [TokTok.Token.atom "identifier" "return" none, TokTok.Token.atom "symbol" "/" none, TokTok.Token.atom "identifier" "a" none, TokTok.Token.atom "symbol" "/" none, TokTok.Token.atom "symbol" ";" none], tokenBuffer := [], stack := [], position := 11, line := 1, column := 12, inString := false, stringDelimiter := none, opts := { trackPosition := true, preserveWhitespace := false, preserveComments := true, allowRegex := true } }) :=
    loop_step (by decide) eE0 (loop_step (by decide) eE1 (loop_step (by decide) eE2 (loop_step (by decide) eE3 (loop_step (by decide) eE4 (loop_step (by decide) eE5 (loop_step (by decide) eE6 (loop_step (by decide) eE7 (loop_step (by decide) eE8 (loop_step (by decide) eE9 (loop_step (by decide) eE10 (loop_done (by decide))))))))))))
  have htokE : tokenize ({ input := ['r', 'e', 't', 'u', 'r', 'n', ' ', '/', 'a', '/', ';'], tokens := [], tokenBuffer := [], stack := [], position := 0, line := 1, column := 1, inString := false, stringDelimiter := none, opts := { trackPosition := true, preserveWhitespace := false, preserveComments := true, allowRegex := true } }) = Except.ok ([TokTok.Token.atom "identifier" "return" none, TokTok.Token.atom "symbol" "/" none, TokTok.Token.atom "identifier" "a" none, TokTok.Token.atom "symbol" "/" none, TokTok.Token.atom "symbol" ";" none], { input := ['r', 'e', 't', 'u', 'r', 'n', ' ', '/', 'a', '/', ';'], tokens := [TokTok.Token.atom "identifier" "return" none, TokTok.Token.atom "symbol" "/" none, TokTok.Token.atom "identifier" "a" none, TokTok.Token.atom "symbol" "/" none, TokTok.Token.atom "symbol" ";" none], tokenBuffer := [], stack := [], position := 11, line := 1, column := 12, inString := false, stringDelimiter := none, opts := { trackPosition := true, preserveWhitespace := false, preserveComments := true, allowRegex := true } }) := by
    change loop 12 ({ input := ['r', 'e', 't', 'u', 'r', 'n', ' ', '/', 'a', '/', ';'], tokens := [], tokenBuffer := [], stack := [], position := 0, line := 1, column := 1, inString := false, stringDelimiter := none, opts := { trackPosition := true, preserveWhitespace := false, preserveComments := true, allowRegex := true } }) >>= finish = _
    rw [hloopE, exc_bind_ok]
    rfl
  show (tokenize (initSt "return /a/;" (defaultOptions))).map Prod.fst = _
  rw [show initSt "return /a/;" (defaultOptions) = ({ input := ['r', 'e', 't', 'u', 'r', 'n', ' ', '/', 'a', '/', ';'], tokens := [], tokenBuffer := [], stack := [], position := 0, line := 1, column := 1, inString := false, stringDelimiter := none, opts := { trackPosition := true, preserveWhitespace := false, preserveComments := true, allowRegex := true } } : St) from rfl, htokE]
  rfl

theorem runEvalF :
    run (defaultOptions) "\"unterminated" = Except.error { kind := TokTok.ErrKind.unclosedString (some '\"'), position := 13, line := 1, column := 14, context := ['\"', 'u', 'n', 't', 'e', 'r', 'm', 'i', 'n', 'a', 't', 'e', 'd'], pointer := 13 } := by
  have eF0 : step ({ input := ['\"', 'u', 'n', 't', 'e', 'r', 'm', 'i', 'n', 'a', 't', 'e', 'd'], tokens := [], tokenBuffer := [], stack := [], position := 0, line := 1, column := 1, inString := false, stringDelimiter := none, opts := { trackPosition := true, preserveWhitespace := false, preserveComments := true, allowRegex := true } }) = Except.ok ({ input := ['\"', 'u', 'n', 't', 'e', 'r', 'm', 'i', 'n', 'a', 't', 'e', 'd'], tokens := [], tokenBuffer := [], stack := [], position := 1, line := 1, column := 2, inString := true, stringDelimiter := some '\"', opts := { trackPosition := true, preserveWhitespace := false, preserveComments := true, allowRegex := true } }) := by rfl
  have eF1 : step ({ input := ['\"', 'u', 'n', 't', 'e', 'r', 'm', 'i', 'n', 'a', 't', 'e', 'd'], tokens := [], tokenBuffer := [], stack := [], position := 1, line := 1, column := 2, inString := true, stringDelimiter := some '\"', opts := { trackPosition := true, preserveWhitespace := false, preserveComments := true, allowRegex := true } }) = Except.ok ({ input := ['\"', 'u', 'n', 't', 'e', 'r', 'm', 'i', 'n', 'a', 't', 'e', 'd'], tokens := [], tokenBuffer := ['u'], stack := [], position := 2, line := 1, column := 3, inString := true, stringDelimiter := some '\"', opts := { trackPosition := true, preserveWhitespace := false, preserveComments := true, allowRegex := true } }) := by rfl
  have eF2 : step ({ input := ['\"', 'u', 'n', 't', 'e', 'r', 'm', 'i', 'n', 'a', 't', 'e', 'd'], tokens := [], tokenBuffer := ['u'], stack := [], position := 2, line := 1, column := 3, inString := true, stringDelimiter := some '\"', opts := { trackPosition := true, preserveWhitespace := false, preserveComments := true, allowRegex := true } }) = Except.ok ({ input := ['\"', 'u', 'n', 't', 'e', 'r', 'm', 'i', 'n', 'a', 't', 'e', 'd'], tokens := [], tokenBuffer := ['u', 'n'], stack := [], position := 3, line := 1, column := 4, inString := true, stringDelimiter := some '\"', opts := { trackPosition := true, preserveWhitespace := false, preserveComments := true, allowRegex := true } }) := by rfl
  have eF3 : step ({ input := ['\"', 'u', 'n', 't', 'e', 'r', 'm', 'i', 'n', 'a', 't', 'e', 'd'], tokens := [], tokenBuffer := ['u', 'n'], stack := [], position := 3, line := 1, column := 4, inString := true, stringDelimiter := some '\"', opts := { trackPosition := true, preserveWhitespace := false, preserveComments := true, allowRegex := true } }) = Except.ok ({ input := ['\"', 'u', 'n', 't', 'e', 'r', 'm', 'i', 'n', 'a', 't', 'e', 'd'], tokens := [], tokenBuffer := ['u', 'n', 't'], stack := [], position := 4, line := 1, column := 5, inString := true, stringDelimiter := some '\"', opts := { trackPosition := true, preserveWhitespace := false, preserveComments := true, allowRegex := true } }) := by rfl
  have eF4 : step ({ input := ['\"', 'u', 'n', 't', 'e', 'r', 'm', 'i', 'n', 'a', 't', 'e', 'd'], tokens := [], tokenBuffer := ['u', 'n', 't'], stack := [], position := 4, line := 1, column := 5, inString := true, stringDelimiter := some '\"', opts := { trackPosition := true, preserveWhitespace := false, preserveComments := true, allowRegex := true } }) = Except.ok ({ input := ['\"', 'u', 'n', 't', 'e', 'r', 'm', 'i', 'n', 'a', 't', 'e', 'd'], tokens := [], tokenBuffer := ['u', 'n', 't', 'e'], stack := [], position := 5, line := 1, column := 6, inString := true, stringDelimiter := some '\"', opts := { trackPosition := true, preserveWhitespace := false, preserveComments := true, allowRegex := true } }) := by rfl
  have eF5 : step ({ input := ['\"', 'u', 'n', 't', 'e', 'r', 'm', 'i', 'n', 'a', 't', 'e', 'd'], tokens := [], tokenBuffer := ['u', 'n', 't', 'e'], stack := [], position := 5, line := 1, column := 6, inString := true, stringDelimiter := some '\"', opts := { trackPosition := true, preserveWhitespace := false, preserveComments := true, allowRegex := true } }) = Except.ok ({ input := ['\"', 'u', 'n', 't', 'e', 'r', 'm', 'i', 'n', 'a', 't', 'e', 'd'], tokens := [], tokenBuffer := ['u', 'n', 't', 'e', 'r'], stack := [], position := 6, line := 1, column := 7, inString := true, stringDelimiter := some '\"', opts := { trackPosition := true, preserveWhitespace := false, preserveComments := true, allowRegex := true } }) := by rfl
  have eF6 : step ({ input := ['\"', 'u', 'n', 't', 'e', 'r', 'm', 'i', 'n', 'a', 't', 'e', 'd'], tokens := [], tokenBuffer := ['u', 'n', 't', 'e', 'r'], stack := [], position := 6, line := 1, column := 7, inString := true, stringDelimiter := some '\"', opts := { trackPosition := true, preserveWhitespace := false, preserveComments := true, allowRegex := true } }) = Except.ok ({ input := ['\"', 'u', 'n', 't', 'e', 'r', 'm', 'i', 'n', 'a', 't', 'e', 'd'], tokens := [], tokenBuffer := ['u', 'n', 't', 'e', 'r', 'm'], stack := [], position := 7, line := 1, column := 8, inString := true, stringDelimiter := some '\"', opts := { trackPosition := true, preserveWhitespace := false, preserveComments := true, allowRegex := true } }) := by rfl
  have eF7 : step ({ input := ['\"', 'u', 'n', 't', 'e', 'r', 'm', 'i', 'n', 'a', 't', 'e', 'd'], tokens := [], tokenBuffer := ['u', 'n', 't', 'e', 'r', 'm'], stack := [], position := 7, line := 1, column := 8, inString := true, stringDelimiter := some '\"', opts := { trackPosition := true, preserveWhitespace := false, preserveComments := true, allowRegex := true } }) = Except.ok ({ input := ['\"', 'u', 'n', 't', 'e', 'r', 'm', 'i', 'n', 'a', 't', 'e', 'd'], tokens := [], tokenBuffer := ['u', 'n', 't', 'e', 'r', 'm', 'i'], stack := [], position := 8, line := 1, column := 9, inString := true, stringDelimiter := some '\"', opts := { trackPosition := true, preserveWhitespace := false, preserveComments := true, allowRegex := true } }) := by rfl
  have eF8 : step ({ input := ['\"', 'u', 'n', 't', 'e', 'r', 'm', 'i', 'n', 'a', 't', 'e', 'd'], tokens := [], tokenBuffer := ['u', 'n', 't', 'e', 'r', 'm', 'i'], stack := [], position := 8, line := 1, column := 9, inString := true, stringDelimiter := some '\"', opts := { trackPosition := true, preserveWhitespace := false, preserveComments := true, allowRegex := true } }) = Except.ok ({ input := ['\"', 'u', 'n', 't', 'e', 'r', 'm', 'i', 'n', 'a', 't', 'e', 'd'], tokens := [], tokenBuffer := ['u', 'n', 't', 'e', 'r', 'm', 'i', 'n'], stack := [], position := 9, line := 1, column := 10, inString := true, stringDelimiter := some '\"', opts := { trackPosition := true, preserveWhitespace := false, preserveComments := true, allowRegex := true } }) := by rfl
  have eF9 : step ({ input := ['\"', 'u', 'n', 't', 'e', 'r', 'm', 'i', 'n', 'a', 't', 'e', 'd'], tokens := [], tokenBuffer := ['u', 'n', 't', 'e', 'r', 'm', 'i', 'n'], stack := [], position := 9, line := 1, column := 10, inString := true, stringDelimiter := some '\"', opts := { trackPosition := true, preserveWhitespace := false, preserveComments := true, allowRegex := true } }) = Except.ok ({ input := ['\"', 'u', 'n', 't', 'e', 'r', 'm', 'i', 'n', 'a', 't', 'e', 'd'], tokens := [], tokenBuffer := ['u', 'n', 't', 'e', 'r', 'm', 'i', 'n', 'a'], stack := [], position := 10, line := 1, column := 11, inString := true, stringDelimiter := some '\"', opts := { trackPosition := true, preserveWhitespace := false, preserveComments := true, allowRegex := true } }) := by rfl
  have eF10 : step ({ input := ['\"', 'u', 'n', 't', 'e', 'r', 'm', 'i', 'n', 'a', 't', 'e', 'd'], tokens := [], tokenBuffer := ['u', 'n', 't', 'e', 'r', 'm', 'i', 'n', 'a'], stack := [], position := 10, line := 1, column := 11, inString := true, stringDelimiter := some '\"', opts := { trackPosition := true, preserveWhitespace := false, preserveComments := true, allowRegex := true } }) = Except.ok ({ input := ['\"', 'u', 'n', 't', 'e', 'r', 'm', 'i', 'n', 'a', 't', 'e', 'd'], tokens := [], tokenBuffer := ['u', 'n', 't', 'e', 'r', 'm', 'i', 'n', 'a', 't'], stack := [], position := 11, line := 1, column := 12, inString := true, stringDelimiter := some '\"', opts := { trackPosition := true, preserveWhitespace := false, preserveComments := true, allowRegex := true } }) := by rfl
  have eF11 : step ({ input := ['\"', 'u', 'n', 't', 'e', 'r', 'm', 'i', 'n', 'a', 't', 'e', 'd'], tokens := [], tokenBuffer := ['u', 'n', 't', 'e', 'r', 'm', 'i', 'n', 'a', 't'], stack := [], position := 11, line := 1, column := 12, inString := true, stringDelimiter := some '\"', opts := { trackPosition := true, preserveWhitespace := false, preserveComments := true, allowRegex := true } }) = Except.ok ({ input := ['\"', 'u', 'n', 't', 'e', 'r', 'm', 'i', 'n', 'a', 't', 'e', 'd'], tokens := [], tokenBuffer := ['u', 'n', 't', 'e', 'r', 'm', 'i', 'n', 'a', 't', 'e'], stack := [], position := 12, line := 1, column := 13, inString := true, stringDelimiter := some '\"', opts := { trackPosition := true, preserveWhitespace := false, preserveComments := true, allowRegex := true } }) := by rfl
  have eF12 : step ({ input := ['\"', 'u', 'n', 't', 'e', 'r', 'm', 'i', 'n', 'a', 't', 'e', 'd'], tokens := [], tokenBuffer := ['u', 'n', 't', 'e', 'r', 'm', 'i', 'n', 'a', 't', 'e'], stack := [], position := 12, line := 1, column := 13, inString := true, stringDelimiter := some '\"', opts := { trackPosition := true, preserveWhitespace := false, preserveComments := true, allowRegex := true } }) = Except.ok ({ input := ['\"', 'u', 'n', 't', 'e', 'r', 'm', 'i', 'n', 'a', 't', 'e', 'd'], tokens := [], tokenBuffer := ['u', 'n', 't', 'e', 'r', 'm', 'i', 'n', 'a', 't', 'e', 'd'], stack := [], position := 13, line := 1, column := 14, inString := true, stringDelimiter := some '\"', opts := { trackPosition := true, preserveWhitespace := false, preserveComments := true, allowRegex := true } }) := by rfl
  have hloopF : loop 14 ({ input := ['\"', 'u', 'n', 't', 'e', 'r', 'm', 'i', 'n', 'a', 't', 'e', 'd'], tokens := [], tokenBuffer := [], stack := [], position := 0, line := 1, column := 1, inString := false, stringDelimiter := none, opts := { trackPosition := true, preserveWhitespace := false, preserveComments := true, allowRegex := true } }) = Except.ok ({ input := ['\"', 'u', 'n', 't', 'e', 'r', 'm', 'i', 'n', 'a', 't', 'e', 'd'], tokens := [], tokenBuffer := ['u', 'n', 't', 'e', 'r', 'm', 'i', 'n', 'a', 't', 'e', 'd'], stack := [], position := 13, line := 1, column := 14, inString := true, stringDelimiter := some '\"', opts := { trackPosition := true, preserveWhitespace := false, preserveComments := true, allowRegex := true } }) :=
    loop_step (by decide) eF0 (loop_step (by decide) eF1 (loop_step (by decide) eF2 (loop_step (by decide) eF3 (loop_step (by decide) eF4 (loop_step (by decide) eF5 (loop_step (by decide) eF6 (loop_step (by decide) eF7 (loop_step (by decide) eF8 (loop_step (by decide) eF9 (loop_step (by decide) eF10 (loop_step (by decide) eF11 (loop_step (by decide) eF12 (loop_done (by decide))))))))))))))
  have htokF : tokenize ({ input := ['\"', 'u', 'n', 't', 'e', 'r', 'm', 'i', 'n', 'a', 't', 'e', 'd'], tokens := [], tokenBuffer := [], stack := [], position := 0, line := 1, column := 1, inString := false, stringDelimiter := none, opts := { trackPosition := true, preserveWhitespace := false, preserveComments := true, allowRegex := true } }) = Except.error { kind := TokTok.ErrKind.unclosedString (some '\"'), position := 13, line := 1, column := 14, context := ['\"', 'u', 'n', 't', 'e', 'r', 'm', 'i', 'n', 'a', 't', 'e', 'd'], pointer := 13 } := by
    change loop 14 ({ input := ['\"', 'u', 'n', 't', 'e', 'r', 'm', 'i', 'n', 'a', 't', 'e', 'd'], tokens := [], tokenBuffer := [], stack := [], position := 0, line := 1, column := 1, inString := false, stringDelimiter := none, opts := { trackPosition := true, preserveWhitespace := false, preserveComments := true, allowRegex := true } }) >>= finish = _
    rw [hloopF, exc_bind_ok]
    rfl
  show (tokenize (initSt "\"unterminated" (defaultOptions))).map Prod.fst = _
  rw [show initSt "\"unterminated" (defaultOptions) = ({ input := ['\"', 'u', 'n', 't', 'e', 'r', 'm', 'i', 'n', 'a', 't', 'e', 'd'], tokens := [], tokenBuffer := [], stack := [], position := 0, line := 1, column := 1, inString := false, stringDelimiter := none, opts := { trackPosition := true, preserveWhitespace := false, preserveComments := true, allowRegex := true } } : St) from rfl, htokF]
  rfl

theorem runEvalG :
    run (defaultOptions) "1.2.3" = Except.error { kind := TokTok.ErrKind.malformedNumber "1.2.3", position := 5, line := 1, column := 6, context := ['1', '.', '2', '.', '3'], pointer := 5 } := by
  have eG0 : step ({ input := ['1', '.', '2', '.', '3'], tokens := [], tokenBuffer := [], stack := [], position := 0, line := 1, column := 1, inString := false, stringDelimiter := none, opts := { trackPosition := true, preserveWhitespace := false, preserveComments := true, allowRegex := true } }) = Except.ok ({ input := ['1', '.', '2', '.', '3'], tokens := [], tokenBuffer := ['1'], stack := [], position := 1, line := 1, column := 2, inString := false, stringDelimiter := none, opts := { trackPosition := true, preserveWhitespace := false, preserveComments := true, allowRegex := true } }) := by rfl
  have eG1 : step ({ input := ['1', '.', '2', '.', '3'], tokens := [], tokenBuffer := ['1'], stack := [], position := 1, line := 1, column := 2, inString := false, stringDelimiter := none, opts := { trackPosition := true, preserveWhitespace := false, preserveComments := true, allowRegex := true } }) = Except.ok ({ input := ['1', '.', '2', '.', '3'], tokens := [], tokenBuffer := ['1', '.'], stack := [], position := 2, line := 1, column := 3, inString := false, stringDelimiter := none, opts := { trackPosition := true, preserveWhitespace := false, preserveComments := true, allowRegex := true } }) := by rfl
  have eG2 : step ({ input := ['1', '.', '2', '.', '3'], tokens := [], tokenBuffer := ['1', '.'], stack := [], position := 2, line := 1, column := 3, inString := false, stringDelimiter := none, opts := { trackPosition := true, preserveWhitespace := false, preserveComments := true, allowRegex := true } }) = Except.ok ({ input := ['1', '.', '2', '.', '3'], tokens := [], tokenBuffer := ['1', '.', '2'], stack := [], position := 3, line := 1, column := 4, inString := false, stringDelimiter := none, opts := { trackPosition := true, preserveWhitespace := false, preserveComments := true, allowRegex := true } }) := by rfl
  have eG3 : step ({ input := ['1', '.', '2', '.', '3'], tokens := [], tokenBuffer := ['1', '.', '2'], stack := [], position := 3, line := 1, column := 4, inString := false, stringDelimiter := none, opts := { trackPosition := true, preserveWhitespace := false, preserveComments := true, allowRegex := true } }) = Except.ok ({ input := ['1', '.', '2', '.', '3'], tokens := [], tokenBuffer := ['1', '.', '2', '.'], stack := [], position := 4, line := 1, column := 5, inString := false, stringDelimiter := none, opts := { trackPosition := true, preserveWhitespace := false, preserveComments := true, allowRegex := true } }) := by rfl
  have eG4 : step ({ input := ['1', '.', '2', '.', '3'], tokens := [], tokenBuffer := ['1', '.', '2', '.'], stack := [], position := 4, line := 1, column := 5, inString := false, stringDelimiter := none, opts := { trackPosition := true, preserveWhitespace := false, preserveComments := true, allowRegex := true } }) = Except.ok ({ input := ['1', '.', '2', '.', '3'], tokens := [], tokenBuffer := ['1', '.', '2', '.', '3'], stack := [], position := 5, line := 1, column := 6, inString := false, stringDelimiter := none, opts := { trackPosition := true, preserveWhitespace := false, preserveComments := true, allowRegex := true } }) := by rfl
  have hloopG : loop 6 ({ input := ['1', '.', '2', '.', '3'], tokens := [], tokenBuffer := [], stack := [], position := 0, line := 1, column := 1, inString := false, stringDelimiter := none, opts := { trackPosition := true, preserveWhitespace := false, preserveComments := true, allowRegex := true } }) = Except.ok ({ input := ['1', '.', '2', '.', '3'], tokens := [], tokenBuffer := ['1', '.', '2', '.', '3'], stack := [], position := 5, line := 1, column := 6, inString := false, stringDelimiter := none, opts := { trackPosition := true, preserveWhitespace := false, preserveComments := true, allowRegex := true } }) :=
    loop_step (by decide) eG0 (loop_step (by decide) eG1 (loop_step (by decide) eG2 (loop_step (by decide) eG3 (loop_step (by decide) eG4 (loop_done (by decide))))))
  have htokG : tokenize ({ input := ['1', '.', '2', '.', '3'], tokens := [], tokenBuffer := [], stack := [], position := 0, line := 1, column := 1, inString := false, stringDelimiter := none, opts := { trackPosition := true, preserveWhitespace := false, preserveComments := true, allowRegex := true } }) = Except.error { kind := TokTok.ErrKind.malformedNumber "1.2.3", position := 5, line := 1, column := 6, context := ['1', '.', '2', '.', '3'], pointer := 5 } := by
    change loop 6 ({ input := ['1', '.', '2', '.', '3'], tokens := [], tokenBuffer := [], stack := [], position := 0, line := 1, column := 1, inString := false, stringDelimiter := none, opts := { trackPosition := true, preserveWhitespace := false, preserveComments := true, allowRegex := true } }) >>= finish = _
    rw [hloopG, exc_bind_ok]
    rfl
  show (tokenize (initSt "1.2.3" (defaultOptions))).map Prod.fst = _
  rw [show initSt "1.2.3" (defaultOptions) = ({ input := ['1', '.', '2', '.', '3'], tokens := [], tokenBuffer := [], stack := [], position := 0, line := 1, column := 1, inString := false, stringDelimiter := none, opts := { trackPosition := true, preserveWhitespace := false, preserveComments := true, allowRegex := true } } : St) from rfl, htokG]
  rfl

theorem runEvalH :
    run (defaultOptions) "= /a/;" = Except.ok [TokTok.Token.atom "symbol" "=" none, TokTok.Token.atom "regex" "/a/" none, TokTok.Token.atom "symbol" ";" none] := by
  have eH0 : step ({ input := ['=', ' ', '/', 'a', '/', ';'], tokens := [], tokenBuffer := [], stack := [], position := 0, line := 1, column := 1, inString := false, stringDelimiter := none, opts := { trackPosition := true, preserveWhitespace := false, preserveComments := true, allowRegex := true } }) = Except.ok ({ input := ['=', ' ', '/', 'a', '/', ';'], tokens := [TokTok.Token.atom "symbol" "=" none], tokenBuffer := [], stack := [], position := 1, line := 1, column := 2, inString := false, stringDelimiter := none, opts := { trackPosition := true, preserveWhitespace := false, preserveComments := true, allowRegex := true } }) := by rfl
  have eH1 : step ({ input := ['=', ' ', '/', 'a', '/', ';'], tokens := [TokTok.Token.atom "symbol" "=" none], tokenBuffer := [], stack := [], position := 1, line := 1, column := 2, inString := false, stringDelimiter := none, opts := { trackPosition := true, preserveWhitespace := false, preserveComments := true, allowRegex := true } }) = Except.ok ({ input := ['=', ' ', '/', 'a', '/', ';'], tokens := [TokTok.Token.atom "symbol" "=" none], tokenBuffer := [], stack := [], position := 2, line := 1, column := 3, inString := false, stringDelimiter := none, opts := { trackPosition := true, preserveWhitespace := false, preserveComments := true, allowRegex := true } }) := by rfl
  have eH2 : step ({ input := ['=', ' ', '/', 'a', '/', ';'], tokens := [TokTok.Token.atom "symbol" "=" none], tokenBuffer := [], stack := [], position := 2, line := 1, column := 3, inString := false, stringDelimiter := none, opts := { trackPosition := true, preserveWhitespace := false, preserveComments := true, allowRegex := true } }) = Except.ok ({ input := ['=', ' ', '/', 'a', '/', ';'], tokens := [TokTok.Token.atom "symbol" "=" none, TokTok.Token.atom "regex" "/a/" none], tokenBuffer := [], stack := [], position := 5, line := 1, column := 4, inString := false, stringDelimiter := none, opts := { trackPosition := true, preserveWhitespace := false, preserveComments := true, allowRegex := true } }) := by rfl
  have eH3 : step ({ input := ['=', ' ', '/', 'a', '/', ';'], tokens := [TokTok.Token.atom "symbol" "=" none, TokTok.Token.atom "regex" "/a/" none], tokenBuffer := [], stack := [], position := 5, line := 1, column := 4, inString := false, stringDelimiter := none, opts := { trackPosition := true, preserveWhitespace := false, preserveComments := true, allowRegex := true } }) = Except.ok ({ input := ['=', ' ', '/', 'a', '/', ';'], tokens := [TokTok.Token.atom "symbol" "=" none, TokTok.Token.atom "regex" "/a/" none, TokTok.Token.atom "symbol" ";" none], tokenBuffer := [], stack := [], position := 6, line := 1, column := 5, inString := false, stringDelimiter := none, opts := { trackPosition := true, preserveWhitespace := false, preserveComments := true, allowRegex := true } }) := by rfl
  have hloopH : loop 7 ({ input := ['=', ' ', '/', 'a', '/', ';'], tokens := [], tokenBuffer := [], stack := [], position := 0, line := 1, column := 1, inString := false, stringDelimiter := none, opts := { trackPosition := true, preserveWhitespace := false, preserveComments := true, allowRegex := true } }) = Except.ok ({ input := ['=', ' ', '/', 'a', '/', ';'], tokens := [TokTok.Token.atom "symbol" "=" none, TokTok.Token.atom "regex" "/a/" none, TokTok.Token.atom "symbol" ";" none], tokenBuffer := [], stack := [], position := 6, line := 1, column := 5, inString := false, stringDelimiter := none, opts := { trackPosition := true, preserveWhitespace := false, preserveComments := true, allowRegex := true } }) :=
    loop_step (by decide) eH0 (loop_step (by decide) eH1 (loop_step (by decide) eH2 (loop_step (by decide) eH3 (loop_done (by decide)))))
  have htokH : tokenize ({ input := ['=', ' ', '/', 'a', '/', ';'], tokens := [], tokenBuffer := [], stack := [], position := 0, line := 1, column := 1, inString := false, stringDelimiter := none, opts := { trackPosition := true, preserveWhitespace := false, preserveComments := true, allowRegex := true } }) = Except.ok ([TokTok.Token.atom "symbol" "=" none, TokTok.Token.atom "regex" "/a/" none, TokTok.Token.atom "symbol" ";" none], { input := ['=', ' ', '/', 'a', '/', ';'], tokens := [TokTok.Token.atom "symbol" "=" none, TokTok.Token.atom "regex" "/a/" none, TokTok.Token.atom "symbol" ";" none], tokenBuffer := [], stack := [], position := 6, line := 1, column := 5, inString := false, stringDelimiter := none, opts := { trackPosition := true, preserveWhitespace := false, preserveComments := true, allowRegex := true } }) := by
    change loop 7 ({ input := ['=', ' ', '/', 'a', '/', ';'], tokens := [], tokenBuffer := [], stack := [], position := 0, line := 1, column := 1, inString := false, stringDelimiter := none, opts := { trackPosition := true, preserveWhitespace := false, preserveComments := true, allowRegex := true } }) >>= finish = _
    rw [hloopH, exc_bind_ok]
    rfl
  show (tokenize (initSt "= /a/;" (defaultOptions))).map Prod.fst = _
  rw [show initSt "= /a/;" (defaultOptions) = ({ input := ['=', ' ', '/', 'a', '/', ';'], tokens := [], tokenBuffer := [], stack := [], position := 0, line := 1, column := 1, inString := false, stringDelimiter := none, opts := { trackPosition := true, preserveWhitespace := false, preserveComments := true, allowRegex := true } } : St) from rfl, htokH]
  rfl

theorem runEvalI :
    run (defaultOptions) "\"1.2.3" = Except.error { kind := TokTok.ErrKind.malformedNumber "1.2.3", position := 6, line := 1, column := 7, context := ['\"', '1', '.', '2', '.', '3'], pointer := 6 } := by
  have eI0 : step ({ input := ['\"', '1', '.', '2', '.', '3'], tokens := [], tokenBuffer := [], stack := [], position := 0, line := 1, column := 1, inString := false, stringDelimiter := none, opts := { trackPosition := true, preserveWhitespace := false, preserveComments := true, allowRegex := true } }) = Except.ok ({ input := ['\"', '1', '.', '2', '.', '3'], tokens := [], tokenBuffer := [], stack := [], position := 1, line := 1, column := 2, inString := true, stringDelimiter := some '\"', opts := { trackPosition := true, preserveWhitespace := false, preserveComments := true, allowRegex := true } }) := by rfl
  have eI1 : step ({ input := ['\"', '1', '.', '2', '.', '3'], tokens := [], tokenBuffer := [], stack := [], position := 1, line := 1, column := 2, inString := true, stringDelimiter := some '\"', opts := { trackPosition := true, preserveWhitespace := false, preserveComments := true, allowRegex := true } }) = Except.ok ({ input := ['\"', '1', '.', '2', '.', '3'], tokens := [], tokenBuffer := ['1'], stack := [], position := 2, line := 1, column := 3, inString := true, stringDelimiter := some '\"', opts := { trackPosition := true, preserveWhitespace := false, preserveComments := true, allowRegex := true } }) := by rfl
  have eI2 : step ({ input := ['\"', '1', '.', '2', '.', '3'], tokens := [], tokenBuffer := ['1'], stack := [], position := 2, line := 1, column := 3, inString := true, stringDelimiter := some '\"', opts := { trackPosition := true, preserveWhitespace := false, preserveComments := true, allowRegex := true } }) = Except.ok ({ input := ['\"', '1', '.', '2', '.', '3'], tokens := [], tokenBuffer := ['1', '.'], stack := [], position := 3, line := 1, column := 4, inString := true, stringDelimiter := some '\"', opts := { trackPosition := true, preserveWhitespace := false, preserveComments := true, allowRegex := true } }) := by rfl
  have eI3 : step ({ input := ['\"', '1', '.', '2', '.', '3'], tokens := [], tokenBuffer := ['1', '.'], stack := [], position := 3, line := 1, column := 4, inString := true, stringDelimiter := some '\"', opts := { trackPosition := true, preserveWhitespace := false, preserveComments := true, allowRegex := true } }) = Except.ok ({ input := ['\"', '1', '.', '2', '.', '3'], tokens := [], tokenBuffer := ['1', '.', '2'], stack := [], position := 4, line := 1, column := 5, inString := true, stringDelimiter := some '\"', opts := { trackPosition := true, preserveWhitespace := false, preserveComments := true, allowRegex := true } }) := by rfl
  have eI4 : step ({ input := ['\"', '1', '.', '2', '.', '3'], tokens := [], tokenBuffer := ['1', '.', '2'], stack := [], position := 4, line := 1, column := 5, inString := true, stringDelimiter := some '\"', opts := { trackPosition := true, preserveWhitespace := false, preserveComments := true, allowRegex := true } }) = Except.ok ({ input := ['\"', '1', '.', '2', '.', '3'], tokens := [], tokenBuffer := ['1', '.', '2', '.'], stack := [], position := 5, line := 1, column := 6, inString := true, stringDelimiter := some '\"', opts := { trackPosition := true, preserveWhitespace := false, preserveComments := true, allowRegex := true } }) := by rfl
  have eI5 : step ({ input := ['\"', '1', '.', '2', '.', '3'], tokens := [], tokenBuffer := ['1', '.', '2', '.'], stack := [], position := 5, line := 1, column := 6, inString := true, stringDelimiter := some '\"', opts := { trackPosition := true, preserveWhitespace := false, preserveComments := true, allowRegex := true } }) = Except.ok ({ input := ['\"', '1', '.', '2', '.', '3'], tokens := [], tokenBuffer := ['1', '.', '2', '.', '3'], stack := [], position := 6, line := 1, column := 7, inString := true, stringDelimiter := some '\"', opts := { trackPosition := true, preserveWhitespace := false, preserveComments := true, allowRegex := true } }) := by rfl
  have hloopI : loop 7 ({ input := ['\"', '1', '.', '2', '.', '3'], tokens := [], tokenBuffer := [], stack := [], position := 0, line := 1, column := 1, inString := false, stringDelimiter := none, opts := { trackPosition := true, preserveWhitespace := false, preserveComments := true, allowRegex := true } }) = Except.ok ({ input := ['\"', '1', '.', '2', '.', '3'], tokens := [], tokenBuffer := ['1', '.', '2', '.', '3'], stack := [], position := 6, line := 1, column := 7, inString := true, stringDelimiter := some '\"', opts := { trackPosition := true, preserveWhitespace := false, preserveComments := true, allowRegex := true } }) :=
    loop_step (by decide) eI0 (loop_step (by decide) eI1 (loop_step (by decide) eI2 (loop_step (by decide) eI3 (loop_step (by decide) eI4 (loop_step (by decide) eI5 (loop_done (by decide)))))))
  have htokI : tokenize ({ input := ['\"', '1', '.', '2', '.', '3'], tokens := [], tokenBuffer := [], stack := [], position := 0, line := 1, column := 1, inString := false, stringDelimiter := none, opts := { trackPosition := true, preserveWhitespace := false, preserveComments := true, allowRegex := true } }) = Except.error { kind := TokTok.ErrKind.malformedNumber "1.2.3", position := 6, line := 1, column := 7, context := ['\"', '1', '.', '2', '.', '3'], pointer := 6 } := by
    change loop 7 ({ input := ['\"', '1', '.', '2', '.', '3'], tokens := [], tokenBuffer := [], stack := [], position := 0, line := 1, column := 1, inString := false, stringDelimiter := none, opts := { trackPosition := true, preserveWhitespace := false, preserveComments := true, allowRegex := true } }) >>= finish = _
    rw [hloopI, exc_bind_ok]
    rfl
  show (tokenize (initSt "\"1.2.3" (defaultOptions))).map Prod.fst = _
  rw [show initSt "\"1.2.3" (defaultOptions) = ({ input := ['\"', '1', '.', '2', '.', '3'], tokens := [], tokenBuffer := [], stack := [], position := 0, line := 1, column := 1, inString := false, stringDelimiter := none, opts := { trackPosition := true, preserveWhitespace := false, preserveComments := true, allowRegex := true } } : St) from rfl, htokI]
  rfl

theorem runEvalJ :
    run (defaultOptions) "\"\"" = Except.ok [] := by
  have eJ0 : step ({ input := ['\"', '\"'], tokens := [], tokenBuffer := [], stack := [], position := 0, line := 1, column := 1, inString := false, stringDelimiter := none, opts := { trackPosition := true, preserveWhitespace := false, preserveComments := true, allowRegex := true } }) = Except.ok ({ input := ['\"', '\"'], tokens := [], tokenBuffer := [], stack := [], position := 1, line := 1, column := 2, inString := true, stringDelimiter := some '\"', opts := { trackPosition := true, preserveWhitespace := false, preserveComments := true, allowRegex := true } }) := by rfl
  have eJ1 : step ({ input := ['\"', '\"'], tokens := [], tokenBuffer := [], stack := [], position := 1, line := 1, column := 2, inString := true, stringDelimiter := some '\"', opts := { trackPosition := true, preserveWhitespace := false, preserveComments := true, allowRegex := true } }) = Except.ok ({ input := ['\"', '\"'], tokens := [], tokenBuffer := [], stack := [], position := 2, line := 1, column := 3, inString := false, stringDelimiter := none, opts := { trackPosition := true, preserveWhitespace := false, preserveComments := true, allowRegex := true } }) := by rfl
  have hloopJ : loop 3 ({ input := ['\"', '\"'], tokens := [], tokenBuffer := [], stack := [], position := 0, line := 1, column := 1, inString := false, stringDelimiter := none, opts := { trackPosition := true, preserveWhitespace := false, preserveComments := true, allowRegex := true } }) = Except.ok ({ input := ['\"', '\"'], tokens := [], tokenBuffer := [], stack := [], position := 2, line := 1, column := 3, inString := false, stringDelimiter := none, opts := { trackPosition := true, preserveWhitespace := false, preserveComments := true, allowRegex := true } }) :=
    loop_step (by decide) eJ0 (loop_step (by decide) eJ1 (loop_done (by decide)))
  have htokJ : tokenize ({ input := ['\"', '\"'], tokens := [], tokenBuffer := [], stack := [], position := 0, line := 1, column := 1, inString := false, stringDelimiter := none, opts := { trackPosition := true, preserveWhitespace := false, preserveComments := true, allowRegex := true } }) = Except.ok ([], { input := ['\"', '\"'], tokens := [], tokenBuffer := [], stack := [], position := 2, line := 1, column := 3, inString := false, stringDelimiter := none, opts := { trackPosition := true, preserveWhitespace := false, preserveComments := true, allowRegex := true } }) := by
    change loop 3 ({ input := ['\"', '\"'], tokens := [], tokenBuffer := [], stack := [], position := 0, line := 1, column := 1, inString := false, stringDelimiter := none, opts := { trackPosition := true, preserveWhitespace := false, preserveComments := true, allowRegex := true } }) >>= finish = _
    rw [hloopJ, exc_bind_ok]
    rfl
  show (tokenize (initSt "\"\"" (defaultOptions))).map Prod.fst = _
  rw [show initSt "\"\"" (defaultOptions) = ({ input := ['\"', '\"'], tokens := [], tokenBuffer := [], stack := [], position := 0, line := 1, column := 1, inString := false, stringDelimiter := none, opts := { trackPosition := true, preserveWhitespace := false, preserveComments := true, allowRegex := true } } : St) from rfl, htokJ]
  rfl

theorem runEvalK :
    run (defaultOptions) "``" = Except.ok [] := by
  have eK0 : step ({ input := ['`', '`'], tokens := [], tokenBuffer := [], stack := [], position := 0, line := 1, column := 1, inString := false, stringDelimiter := none, opts := { trackPosition := true, preserveWhitespace := false, preserveComments := true, allowRegex := true } }) = Except.ok ({ input := ['`', '`'], tokens := [], tokenBuffer := [], stack := [], position := 1, line := 1, column := 2, inString := true, stringDelimiter := some '`', opts := { trackPosition := true, preserveWhitespace := false, preserveComments := true, allowRegex := true } }) := by rfl
  have eK1 : step ({ input := ['`', '`'], tokens := [], tokenBuffer := [], stack := [], position := 1, line := 1, column := 2, inString := true, stringDelimiter := some '`', opts := { trackPosition := true, preserveWhitespace := false, preserveComments := true, allowRegex := true } }) = Except.ok ({ input := ['`', '`'], tokens := [], tokenBuffer := [], stack := [], position := 2, line := 1, column := 3, inString := false, stringDelimiter := none, opts := { trackPosition := true, preserveWhitespace := false, preserveComments := true, allowRegex := true } }) := by rfl
  have hloopK : loop 3 ({ input := ['`', '`'], tokens := [], tokenBuffer := [], stack := [], position := 0, line := 1, column := 1, inString := false, stringDelimiter := none, opts := { trackPosition := true, preserveWhitespace := false, preserveComments := true, allowRegex := true } }) = Except.ok ({ input := ['`', '`'], tokens := [], tokenBuffer := [], stack := [], position := 2, line := 1, column := 3, inString := false, stringDelimiter := none, opts := { trackPosition := true, preserveWhitespace := false, preserveComments := true, allowRegex := true } }) :=
    loop_step (by decide) eK0 (loop_step (by decide) eK1 (loop_done (by decide)))
  have htokK : tokenize ({ input := ['`', '`'], tokens := [], tokenBuffer := [], stack := [], position := 0, line := 1, column := 1, inString := false, stringDelimiter := none, opts := { trackPosition := true, preserveWhitespace := false, preserveComments := true, allowRegex := true } }) = Except.ok ([], { input := ['`', '`'], tokens := [], tokenBuffer := [], stack := [], position := 2, line := 1, column := 3, inString := false, stringDelimiter := none, opts := { trackPosition := true, preserveWhitespace := false, preserveComments := true, allowRegex := true } }) := by
    change loop 3 ({ input := ['`', '`'], tokens := [], tokenBuffer := [], stack := [], position := 0, line := 1, column := 1, inString := false, stringDelimiter := none, opts := { trackPosition := true, preserveWhitespace := false, preserveComments := true, allowRegex := true } }) >>= finish = _
    rw [hloopK, exc_bind_ok]
    rfl
  show (tokenize (initSt "``" (defaultOptions))).map Prod.fst = _
  rw [show initSt "``" (defaultOptions) = ({ input := ['`', '`'], tokens := [], tokenBuffer := [], stack := [], position := 0, line := 1, column := 1, inString := false, stringDelimiter := none, opts := { trackPosition := true, preserveWhitespace := false, preserveComments := true, allowRegex := true } } : St) from rfl, htokK]
  rfl

theorem runEvalL :
    run (defaultOptions) (String.mk ['\'', '\'']) = Except.ok [] := by
  have eL0 : step ({ input := ['\'', '\''], tokens := [], tokenBuffer := [], stack := [], position := 0, line := 1, column := 1, inString := false, stringDelimiter := none, opts := { trackPosition := true, preserveWhitespace := false, preserveComments := true, allowRegex := true } }) = Except.ok ({ input := ['\'', '\''], tokens := [], tokenBuffer := [], stack := [], position := 1, line := 1, column := 2, inString := true, stringDelimiter := some '\'', opts := { trackPosition := true, preserveWhitespace := false, preserveComments := true, allowRegex := true } }) := by rfl
  have eL1 : step ({ input := ['\'', '\''], tokens := [], tokenBuffer := [], stack := [], position := 1, line := 1, column := 2, inString := true, stringDelimiter := some '\'', opts := { trackPosition := true, preserveWhitespace := false, preserveComments := true, allowRegex := true } }) = Except.ok ({ input := ['\'', '\''], tokens := [], tokenBuffer := [], stack := [], position := 2, line := 1, column := 3, inString := false, stringDelimiter := none, opts := { trackPosition := true, preserveWhitespace := false, preserveComments := true, allowRegex := true } }) := by rfl
  have hloopL : loop 3 ({ input := ['\'', '\''], tokens := [], tokenBuffer := [], stack := [], position := 0, line := 1, column := 1, inString := false, stringDelimiter := none, opts := { trackPosition := true, preserveWhitespace := false, preserveComments := true, allowRegex := true } }) = Except.ok ({ input := ['\'', '\''], tokens := [], tokenBuffer := [], stack := [], position := 2, line := 1, column := 3, inString := false, stringDelimiter := none, opts := { trackPosition := true, preserveWhitespace := false, preserveComments := true, allowRegex := true } }) :=
    loop_step (by decide) eL0 (loop_step (by decide) eL1 (loop_done (by decide)))
  have htokL : tokenize ({ input := ['\'', '\''], tokens := [], tokenBuffer := [], stack := [], position := 0, line := 1, column := 1, inString := false, stringDelimiter := none, opts := { trackPosition := true, preserveWhitespace := false, preserveComments := true, allowRegex := true } }) = Except.ok ([], { input := ['\'', '\''], tokens := [], tokenBuffer := [], stack := [], position := 2, line := 1, column := 3, inString := false, stringDelimiter := none, opts := { trackPosition := true, preserveWhitespace := false, preserveComments := true, allowRegex := true } }) := by
    change loop 3 ({ input := ['\'', '\''], tokens := [], tokenBuffer := [], stack := [], position := 0, line := 1, column := 1, inString := false, stringDelimiter := none, opts := { trackPosition := true, preserveWhitespace := false, preserveComments := true, allowRegex := true } }) >>= finish = _
    rw [hloopL, exc_bind_ok]
    rfl
  show (tokenize (initSt (String.mk ['\'', '\'']) (defaultOptions))).map Prod.fst = _
  rw [show initSt (String.mk ['\'', '\'']) (defaultOptions) = ({ input := ['\'', '\''], tokens := [], tokenBuffer := [], stack := [], position := 0, line := 1, column := 1, inString := false, stringDelimiter := none, opts := { trackPosition := true, preserveWhitespace := false, preserveComments := true, allowRegex := true } } : St) from rfl, htokL]
  rfl

theorem runEvalM :
    run (defaultOptions) "[x]" = Except.ok [TokTok.Token.block '[' ']' [TokTok.Token.atom "identifier" "x" none]] := by
  have eM0 : step ({ input := ['[', 'x', ']'], tokens := [], tokenBuffer := [], stack := [], position := 0, line := 1, column := 1, inString := false, stringDelimiter := none, opts := { trackPosition := true, preserveWhitespace := false, preserveComments := true, allowRegex := true } }) = Except.ok ({ input := ['[', 'x', ']'], tokens := [], tokenBuffer := [], stack := [('[', ']', [])], position := 1, line := 1, column := 2, inString := false, stringDelimiter := none, opts := { trackPosition := true, preserveWhitespace := false, preserveComments := true, allowRegex := true } }) := by rfl
  have eM1 : step ({ input := ['[', 'x', ']'], tokens := [], tokenBuffer := [], stack := [('[', ']', [])], position := 1, line := 1, column := 2, inString := false, stringDelimiter := none, opts := { trackPosition := true, preserveWhitespace := false, preserveComments := true, allowRegex := true } }) = Except.ok ({ input := ['[', 'x', ']'], tokens := [], tokenBuffer := ['x'], stack := [('[', ']', [])], position := 2, line := 1, column := 3, inString := false, stringDelimiter := none, opts := { trackPosition := true, preserveWhitespace := false, preserveComments := true, allowRegex := true } }) := by rfl
  have eM2 : step ({ input := ['[', 'x', ']'], tokens := [], tokenBuffer := ['x'], stack := [('[', ']', [])], position := 2, line := 1, column := 3, inString := false, stringDelimiter := none, opts := { trackPosition := true, preserveWhitespace := false, preserveComments := true, allowRegex := true } }) = Except.ok ({ input := ['[', 'x', ']'], tokens := [TokTok.Token.block '[' ']' [TokTok.Token.atom "identifier" "x" none]], tokenBuffer := [], stack := [], position := 3, line := 1, column := 4, inString := false, stringDelimiter := none, opts := { trackPosition := true, preserveWhitespace := false, preserveComments := true, allowRegex := true } }) := by rfl
  have hloopM : loop 4 ({ input := ['[', 'x', ']'], tokens := [], tokenBuffer := [], stack := [], position := 0, line := 1, column := 1, inString := false, stringDelimiter := none, opts := { trackPosition := true, preserveWhitespace := false, preserveComments := true, allowRegex := true } }) = Except.ok ({ input := ['[', 'x', ']'], tokens := [TokTok.Token.block '[' ']' [TokTok.Token.atom "identifier" "x" none]], tokenBuffer := [], stack := [], position := 3, line := 1, column := 4, inString := false, stringDelimiter := none, opts := { trackPosition := true, preserveWhitespace := false, preserveComments := true, allowRegex := true } }) :=
    loop_step (by decide) eM0 (loop_step (by decide) eM1 (loop_step (by decide) eM2 (loop_done (by decide))))
  have htokM : tokenize ({ input := ['[', 'x', ']'], tokens := [], tokenBuffer := [], stack := [], position := 0, line := 1, column := 1, inString := false, stringDelimiter := none, opts := { trackPosition := true, preserveWhitespace := false, preserveComments := true, allowRegex := true } }) = Except.ok ([TokTok.Token.block '[' ']' [TokTok.Token.atom "identifier" "x" none]], { input := ['[', 'x', ']'], tokens := [TokTok.Token.block '[' ']' [TokTok.Token.atom "identifier" "x" none]], tokenBuffer := [], stack := [], position := 3, line := 1, column := 4, inString := false, stringDelimiter := none, opts := { trackPosition := true, preserveWhitespace := false, preserveComments := true, allowRegex := true } }) := by
    change loop 4 ({ input := ['[', 'x', ']'], tokens := [], tokenBuffer := [], stack := [], position := 0, line := 1, column := 1, inString := false, stringDelimiter := none, opts := { trackPosition := true, preserveWhitespace := false, preserveComments := true, allowRegex := true } }) >>= finish = _
    rw [hloopM, exc_bind_ok]
    rfl
  show (tokenize (initSt "[x]" (defaultOptions))).map Prod.fst = _
  rw [show initSt "[x]" (defaultOptions) = ({ input := ['[', 'x', ']'], tokens := [], tokenBuffer := [], stack := [], position := 0, line := 1, column := 1, inString := false, stringDelimiter := none, opts := { trackPosition := true, preserveWhitespace := false, preserveComments := true, allowRegex := true } } : St) from rfl, htokM]
  rfl

theorem tokEvalM :
    tokenize (initSt "[x]" (defaultOptions)) = Except.ok ([TokTok.Token.block '[' ']' [TokTok.Token.atom "identifier" "x" none]], { input := ['[', 'x', ']'], tokens := [TokTok.Token.block '[' ']' [TokTok.Token.atom "identifier" "x" none]], tokenBuffer := [], stack := [], position := 3, line := 1, column := 4, inString := false, stringDelimiter := none, opts := { trackPosition := true, preserveWhitespace := false, preserveComments := true, allowRegex := true } }) := by
  have eM0 : step ({ input := ['[', 'x', ']'], tokens := [], tokenBuffer := [], stack := [], position := 0, line := 1, column := 1, inString := false, stringDelimiter := none, opts := { trackPosition := true, preserveWhitespace := false, preserveComments := true, allowRegex := true } }) = Except.ok ({ input := ['[', 'x', ']'], tokens := [], tokenBuffer := [], stack := [('[', ']', [])], position := 1, line := 1, column := 2, inString := false, stringDelimiter := none, opts := { trackPosition := true, preserveWhitespace := false, preserveComments := true, allowRegex := true } }) := by rfl
  have eM1 : step ({ input := ['[', 'x', ']'], tokens := [], tokenBuffer := [], stack := [('[', ']', [])], position := 1, line := 1, column := 2, inString := false, stringDelimiter := none, opts := { trackPosition := true, preserveWhitespace := false, preserveComments := true, allowRegex := true } }) = Except.ok ({ input := ['[', 'x', ']'], tokens := [], tokenBuffer := ['x'], stack := [('[', ']', [])], position := 2, line := 1, column := 3, inString := false, stringDelimiter := none, opts := { trackPosition := true, preserveWhitespace := false, preserveComments := true, allowRegex := true } }) := by rfl
  have eM2 : step ({ input := ['[', 'x', ']'], tokens := [], tokenBuffer := ['x'], stack := [('[', ']', [])], position := 2, line := 1, column := 3, inString := false, stringDelimiter := none, opts := { trackPosition := true, preserveWhitespace := false, preserveComments := true, allowRegex := true } }) = Except.ok ({ input := ['[', 'x', ']'], tokens := [TokTok.Token.block '[' ']' [TokTok.Token.atom "identifier" "x" none]], tokenBuffer := [], stack := [], position := 3, line := 1, column := 4, inString := false, stringDelimiter := none, opts := { trackPosition := true, preserveWhitespace := false, preserveComments := true, allowRegex := true } }) := by rfl
  have hloopM : loop 4 ({ input := ['[', 'x', ']'], tokens := [], tokenBuffer := [], stack := [], position := 0, line := 1, column := 1, inString := false, stringDelimiter := none, opts := { trackPosition := true, preserveWhitespace := false, preserveComments := true, allowRegex := true } }) = Except.ok ({ input := ['[', 'x', ']'], tokens := [TokTok.Token.block '[' ']' [TokTok.Token.atom "identifier" "x" none]], tokenBuffer := [], stack := [], position := 3, line := 1, column := 4, inString := false, stringDelimiter := none, opts := { trackPosition := true, preserveWhitespace := false, preserveComments := true, allowRegex := true } }) :=
    loop_step (by decide) eM0 (loop_step (by decide) eM1 (loop_step (by decide) eM2 (loop_done (by decide))))
  have htokM : tokenize ({ input := ['[', 'x', ']'], tokens := [], tokenBuffer := [], stack := [], position := 0, line := 1, column := 1, inString := false, stringDelimiter := none, opts := { trackPosition := true, preserveWhitespace := false, preserveComments := true, allowRegex := true } }) = Except.ok ([TokTok.Token.block '[' ']' [TokTok.Token.atom "identifier" "x" none]], { input := ['[', 'x', ']'], tokens := [TokTok.Token.block '[' ']' [TokTok.Token.atom "identifier" "x" none]], tokenBuffer := [], stack := [], position := 3, line := 1, column := 4, inString := false, stringDelimiter := none, opts := { trackPosition := true, preserveWhitespace := false, preserveComments := true, allowRegex := true } }) := by
    change loop 4 ({ input := ['[', 'x', ']'], tokens := [], tokenBuffer := [], stack := [], position := 0, line := 1, column := 1, inString := false, stringDelimiter := none, opts := { trackPosition := true, preserveWhitespace := false, preserveComments := true, allowRegex := true } }) >>= finish = _
    rw [hloopM, exc_bind_ok]
    rfl
  rw [show initSt "[x]" (defaultOptions) = ({ input := ['[', 'x', ']'], tokens := [], tokenBuffer := [], stack := [], position := 0, line := 1, column := 1, inString := false, stringDelimiter := none, opts := { trackPosition := true, preserveWhitespace := false, preserveComments := true, allowRegex := true } } : St) from rfl]
  exact htokM

theorem tokEvalA :
    tokenize (initSt "x" (defaultOptions)) = Except.ok ([TokTok.Token.atom "identifier" "x" none], { input := ['x'], tokens := [TokTok.Token.atom "identifier" "x" none], tokenBuffer := [], stack := [], position := 1, line := 1, column := 2, inString := false, stringDelimiter := none, opts := { trackPosition := true, preserveWhitespace := false, preserveComments := true, allowRegex := true } }) := by
  have eA0 : step ({ input := ['x'], tokens := [], tokenBuffer := [], stack := [], position := 0, line := 1, column := 1, inString := false, stringDelimiter := none, opts := { trackPosition := true, preserveWhitespace := false, preserveComments := true, allowRegex := true } }) = Except.ok ({ input := ['x'], tokens := [], tokenBuffer := ['x'], stack := [], position := 1, line := 1, column := 2, inString := false, stringDelimiter := none, opts := { trackPosition := true, preserveWhitespace := false, preserveComments := true, allowRegex := true } }) := by rfl
  have hloopA : loop 2 ({ input := ['x'], tokens := [], tokenBuffer := [], stack := [], position := 0, line := 1, column := 1, inString := false, stringDelimiter := none, opts := { trackPosition := true, preserveWhitespace := false, preserveComments := true, allowRegex := true } }) = Except.ok ({ input := ['x'], tokens := [], tokenBuffer := ['x'], stack := [], position := 1, line := 1, column := 2, inString := false, stringDelimiter := none, opts := { trackPosition := true, preserveWhitespace := false, preserveComments := true, allowRegex := true } }) :=
    loop_step (by decide) eA0 (loop_done (by decide))
  have htokA : tokenize ({ input := ['x'], tokens := [], tokenBuffer := [], stack := [], position := 0, line := 1, column := 1, inString := false, stringDelimiter := none, opts := { trackPosition := true, preserveWhitespace := false, preserveComments := true, allowRegex := true } }) = Except.ok ([TokTok.Token.atom "identifier" "x" none], { input := ['x'], tokens := [TokTok.Token.atom "identifier" "x" none], tokenBuffer := [], stack := [], position := 1, line := 1, column := 2, inString := false, stringDelimiter := none, opts := { trackPosition := true, preserveWhitespace := false, preserveComments := true, allowRegex := true } }) := by
    change loop 2 ({ input := ['x'], tokens := [], tokenBuffer := [], stack := [], position := 0, line := 1, column := 1, inString := false, stringDelimiter := none, opts := { trackPosition := true, preserveWhitespace := false, preserveComments := true, allowRegex := true } }) >>= finish = _
    rw [hloopA, exc_bind_ok]
    rfl
  rw [show initSt "x" (defaultOptions) = ({ input := ['x'], tokens := [], tokenBuffer := [], stack := [], position := 0, line := 1, column := 1, inString := false, stringDelimiter := none, opts := { trackPosition := true, preserveWhitespace := false, preserveComments := true, allowRegex := true } } : St) from rfl]
  exact htokA

theorem loopEvalI :
    loop 7 (initSt "\"1.2.3" (defaultOptions)) = Except.ok ({ input := ['\"', '1', '.', '2', '.', '3'], tokens := [], tokenBuffer := ['1', '.', '2', '.', '3'], stack := [], position := 6, line := 1, column := 7, inString := true, stringDelimiter := some '\"', opts := { trackPosition := true, preserveWhitespace := false, preserveComments := true, allowRegex := true } }) := by
  have eI0 : step ({ input := ['\"', '1', '.', '2', '.', '3'], tokens := [], tokenBuffer := [], stack := [], position := 0, line := 1, column := 1, inString := false, stringDelimiter := none, opts := { trackPosition := true, preserveWhitespace := false, preserveComments := true, allowRegex := true } }) = Except.ok ({ input := ['\"', '1', '.', '2', '.', '3'], tokens := [], tokenBuffer := [], stack := [], position := 1, line := 1, column := 2, inString := true, stringDelimiter := some '\"', opts := { trackPosition := true, preserveWhitespace := false, preserveComments := true, allowRegex := true } }) := by rfl
  have eI1 : step ({ input := ['\"', '1', '.', '2', '.', '3'], tokens := [], tokenBuffer := [], stack := [], position := 1, line := 1, column := 2, inString := true, stringDelimiter := some '\"', opts := { trackPosition := true, preserveWhitespace := false, preserveComments := true, allowRegex := true } }) = Except.ok ({ input := ['\"', '1', '.', '2', '.', '3'], tokens := [], tokenBuffer := ['1'], stack := [], position := 2, line := 1, column := 3, inString := true, stringDelimiter := some '\"', opts := { trackPosition := true, preserveWhitespace := false, preserveComments := true, allowRegex := true } }) := by rfl
  have eI2 : step ({ input := ['\"', '1', '.', '2', '.', '3'], tokens := [], tokenBuffer := ['1'], stack := [], position := 2, line := 1, column := 3, inString := true, stringDelimiter := some '\"', opts := { trackPosition := true, preserveWhitespace := false, preserveComments := true, allowRegex := true } }) = Except.ok ({ input := ['\"', '1', '.', '2', '.', '3'], tokens := [], tokenBuffer := ['1', '.'], stack := [], position := 3, line := 1, column := 4, inString := true, stringDelimiter := some '\"', opts := { trackPosition := true, preserveWhitespace := false, preserveComments := true, allowRegex := true } }) := by rfl
  have eI3 : step ({ input := ['\"', '1', '.', '2', '.', '3'], tokens := [], tokenBuffer := ['1', '.'], stack := [], position := 3, line := 1, column := 4, inString := true, stringDelimiter := some '\"', opts := { trackPosition := true, preserveWhitespace := false, preserveComments := true, allowRegex := true } }) = Except.ok ({ input := ['\"', '1', '.', '2', '.', '3'], tokens := [], tokenBuffer := ['1', '.', '2'], stack := [], position := 4, line := 1, column := 5, inString := true, stringDelimiter := some '\"', opts := { trackPosition := true, preserveWhitespace := false, preserveComments := true, allowRegex := true } }) := by rfl
  have eI4 : step ({ input := ['\"', '1', '.', '2', '.', '3'], tokens := [], tokenBuffer := ['1', '.', '2'], stack := [], position := 4, line := 1, column := 5, inString := true, stringDelimiter := some '\"', opts := { trackPosition := true, preserveWhitespace := false, preserveComments := true, allowRegex := true } }) = Except.ok ({ input := ['\"', '1', '.', '2', '.', '3'], tokens := [], tokenBuffer := ['1', '.', '2', '.'], stack := [], position := 5, line := 1, column := 6, inString := true, stringDelimiter := some '\"', opts := { trackPosition := true, preserveWhitespace := false, preserveComments := true, allowRegex := true } }) := by rfl
  have eI5 : step ({ input := ['\"', '1', '.', '2', '.', '3'], tokens := [], tokenBuffer := ['1', '.', '2', '.'], stack := [], position := 5, line := 1, column := 6, inString := true, stringDelimiter := some '\"', opts := { trackPosition := true, preserveWhitespace := false, preserveComments := true, allowRegex := true } }) = Except.ok ({ input := ['\"', '1', '.', '2', '.', '3'], tokens := [], tokenBuffer := ['1', '.', '2', '.', '3'], stack := [], position := 6, line := 1, column := 7, inString := true, stringDelimiter := some '\"', opts := { trackPosition := true, preserveWhitespace := false, preserveComments := true, allowRegex := true } }) := by rfl
  have hloopI : loop 7 ({ input := ['\"', '1', '.', '2', '.', '3'], tokens := [], tokenBuffer := [], stack := [], position := 0, line := 1, column := 1, inString := false, stringDelimiter := none, opts := { trackPosition := true, preserveWhitespace := false, preserveComments := true, allowRegex := true } }) = Except.ok ({ input := ['\"', '1', '.', '2', '.', '3'], tokens := [], tokenBuffer := ['1', '.', '2', '.', '3'], stack := [], position := 6, line := 1, column := 7, inString := true, stringDelimiter := some '\"', opts := { trackPosition := true, preserveWhitespace := false, preserveComments := true, allowRegex := true } }) :=
    loop_step (by decide) eI0 (loop_step (by decide) eI1 (loop_step (by decide) eI2 (loop_step (by decide) eI3 (loop_step (by decide) eI4 (loop_step (by decide) eI5 (loop_done (by decide)))))))
  have htokI : tokenize ({ input := ['\"', '1', '.', '2', '.', '3'], tokens := [], tokenBuffer := [], stack := [], position := 0, line := 1, column := 1, inString := false, stringDelimiter := none, opts := { trackPosition := true, preserveWhitespace := false, preserveComments := true, allowRegex := true } }) = Except.error { kind := TokTok.ErrKind.malformedNumber "1.2.3", position := 6, line := 1, column := 7, context := ['\"', '1', '.', '2', '.', '3'], pointer := 6 } := by
    change loop 7 ({ input := ['\"', '1', '.', '2', '.', '3'], tokens := [], tokenBuffer := [], stack := [], position := 0, line := 1, column := 1, inString := false, stringDelimiter := none, opts := { trackPosition := true, preserveWhitespace := false, preserveComments := true, allowRegex := true } }) >>= finish = _
    rw [hloopI, exc_bind_ok]
    rfl
  rw [show initSt "\"1.2.3" (defaultOptions) = ({ input := ['\"', '1', '.', '2', '.', '3'], tokens := [], tokenBuffer := [], stack := [], position := 0, line := 1, column := 1, inString := false, stringDelimiter := none, opts := { trackPosition := true, preserveWhitespace := false, preserveComments := true, allowRegex := true } } : St) from rfl]
  exact hloopI


/-- C1.  Position tracking is on by default (`trackPosition := true`), yet the
token emitted for input `x` is exactly the object with a type and a value and
no `position` field at all: `#addToken` never attaches one, although the
README documents `position: {start, end}` on tokens whenever `trackPosition`
is on (and `toString()` reads `token.position`). -/
theorem c1_no_position_on_tokens :
    defaultOptions.trackPosition = true ∧
    run defaultOptions "x" = .ok [Token.atom "identifier" "x" none] :=
  ⟨rfl, runEvalA⟩

/-- C10.  Tokenizing two adjacent identical quote characters succeeds and
yields no token at all, for each of the three quote styles: string
termination emits only when the accumulated buffer is non-empty. -/
theorem c10_empty_string_literal_no_token :
    run defaultOptions "\"\"" = .ok [] ∧
    run defaultOptions "``" = .ok [] ∧
    run defaultOptions (String.mk ['\'', '\'']) = .ok [] :=
  ⟨runEvalJ, runEvalK, runEvalL⟩

/-- C2 counterexample.  For the well-formed string literal `"a"` the emitted
string token's value is `a` alone: it does not contain the quote characters,
contradicting the claim that the delimiters are included in the value. -/
theorem c2_counterexample :
    run defaultOptions "\"a\"" = .ok [Token.atom "string" "a" none] ∧
    "a".data.contains '"' = false :=
  ⟨runEvalD, by decide⟩

/-- C4 counterexample.  For input `return /a/;` no regex token is emitted:
`return` is tokenized as an identifier, and `#checkRegex` requires the last
meaningful token's type to be symbol or keyword, so the two slashes become
division symbols. -/
theorem c4_counterexample :
    run defaultOptions "return /a/;" =
      .ok [Token.atom "identifier" "return" none, Token.atom "symbol" "/" none,
     Token.atom "identifier" "a" none, Token.atom "symbol" "/" none,
     Token.atom "symbol" ";" none] ∧
    [Token.atom "identifier" "return" none, Token.atom "symbol" "/" none,
     Token.atom "identifier" "a" none, Token.atom "symbol" "/" none,
     Token.atom "symbol" ";" none].all
      (fun t => !(tokType t == "regex")) = true :=
  ⟨runEvalE, by decide⟩

/-- C5 counterexample.  With `preserveComments := false`, input `/* a */x`
does yield the single Identifier `x`, but after the comment-handling step the
scanner stands at position 7 (the `x`) with column 2, not 8: the single-line
block-comment path advances the column by only one for the whole 7-character
comment. -/
theorem c5_counterexample :
    run { defaultOptions with preserveComments := false } "/* a */x" =
      .ok [Token.atom "identifier" "x" none] ∧
    (step (initSt "/* a */x" { defaultOptions with preserveComments := false })).map St.position
      = .ok 7 ∧
    (step (initSt "/* a */x" { defaultOptions with preserveComments := false })).map St.column
      = .ok 2 :=
  ⟨runEvalC, by rfl, by rfl⟩

/-- C5 (amended).  Scenario C behaves as claimed for the token stream — the
comment is scanned and discarded and the line counter is maintained — but the
column is not advanced across the comment body: after `#handleComment` plus
the loop footer the scanner reaches `x` at position 7, line 1, column 2 (the
comment advanced the column by exactly one). -/
theorem c5_comment_discarded_column_two :
    run { defaultOptions with preserveComments := false } "/* a */x" =
      .ok [Token.atom "identifier" "x" none] ∧
    (step (initSt "/* a */x" { defaultOptions with preserveComments := false })).map
      (fun s => (s.position, s.line, s.column)) = .ok (7, 1, 2) :=
  ⟨runEvalC, by rfl⟩

/-- C6 counterexample.  Input `"1.2.3` (opening quote never closed) reaches
end of input still inside the string — the loop's final state has
`inString = true` — yet `tokenize()` fails with the malformed-number error,
not the unclosed-string error: the final `#flushBuffer()` throws first. -/
theorem c6_counterexample :
    (loop 7 (initSt "\"1.2.3" defaultOptions)).map St.inString = .ok true ∧
    run defaultOptions "\"1.2.3" =
      .error { kind := .malformedNumber "1.2.3", position := 6, line := 1, column := 7,
               context := "\"1.2.3".data, pointer := 6 } := by
  refine ⟨?_, runEvalI⟩
  rw [loopEvalI]
  rfl


/-- C6 (amended).  Whenever the scan loop ends still inside a string literal,
`tokenize()` fails: the epilogue can never return successfully with
`inString` set, and the error is precisely the unclosed-string error whenever
the final `#flushBuffer()` succeeds and no block is left open (otherwise the
malformed-number or unclosed-block error is raised first).  In particular
input `"unterminated` fails with the unclosed-string error at end of input
(offset 13, line 1, column 14). -/
theorem c6_eoi_in_string_always_fails :
    (∀ (s : St) (r : List Token × St), s.inString = true → finish s ≠ .ok r) ∧
    (∀ (s s2 : St), s.inString = true → flushBuffer s = .ok s2 → s2.stack = [] →
        finish s = .error (mkErr s2 (.unclosedString s2.stringDelimiter))) ∧
    run defaultOptions "\"unterminated" =
      .error { kind := .unclosedString (some '"'), position := 13, line := 1, column := 14,
               context := "\"unterminated".data, pointer := 13 } := by
  refine ⟨?_, ?_, runEvalF⟩
  · intro s r hin h
    unfold finish at h
    cases hfb : flushBuffer s with
    | error e => rw [hfb, exc_bind_error] at h; cases h
    | ok s2 =>
      rw [hfb, exc_bind_ok] at h
      have hin2 : s2.inString = true := ((flushBuffer_ok_fields hfb).2.2.2.2.1).trans hin
      split at h
      · cases h
      · rw [if_pos hin2] at h; cases h
  · intro s s2 hin hfb hstk
    have hin2 : s2.inString = true := ((flushBuffer_ok_fields hfb).2.2.2.2.1).trans hin
    unfold finish
    rw [hfb, exc_bind_ok]
    split
    · rename_i heq
      rw [hstk] at heq
      cases heq
    · rw [if_pos hin2]

/-- C6 witness: the epilogue applied to a concrete mid-scan state that is
still inside a string (input `"a` fully consumed, buffer `a`): `finish`
rejects it with the unclosed-string error. -/
theorem c6_witness :
    finish { input := ['"', 'a'], tokens := [], tokenBuffer := ['a'], stack := [],
             position := 2, line := 1, column := 3, inString := true,
             stringDelimiter := some '"', opts := defaultOptions } =
      .error { kind := .unclosedString (some '"'), position := 2, line := 1, column := 3,
               context := ['"', 'a'], pointer := 2 } := by
  have h := c6_eoi_in_string_always_fails.2.1
    { input := ['"', 'a'], tokens := [], tokenBuffer := ['a'], stack := [],
      position := 2, line := 1, column := 3, inString := true,
      stringDelimiter := some '"', opts := defaultOptions }
    { input := ['"', 'a'], tokens := [Token.atom "identifier" "a" none], tokenBuffer := [],
      stack := [], position := 2, line := 1, column := 3, inString := true,
      stringDelimiter := some '"', opts := defaultOptions }
    rfl (by rfl) rfl
  simpa [mkErr] using h

/-- C7.  The `#flushBuffer()` classification policy: a non-empty buffer drawn
entirely from `[0-9.]` is emitted as a Number token when it contains at most
one dot, and raises the fatal malformed-number error when it contains more
than one; in particular the contiguous run `1.2.3` makes `tokenize()` fail
with the malformed-number error at end of input. -/
theorem c7_flush_number_policy :
    (∀ s : St, s.tokenBuffer ≠ [] →
      s.tokenBuffer.all (fun c => c.isDigit || c == '.') = true →
      (((s.tokenBuffer.filter (fun c => c == '.')).length ≤ 1) →
        flushBuffer s = .ok { addTok (Token.atom "number" ⟨s.tokenBuffer⟩ none) s with
                                tokenBuffer := [] }) ∧
      (1 < (s.tokenBuffer.filter (fun c => c == '.')).length →
        flushBuffer s = .error (mkErr s (.malformedNumber ⟨s.tokenBuffer⟩)))) ∧
    run defaultOptions "1.2.3" =
      .error { kind := .malformedNumber "1.2.3", position := 5, line := 1, column := 6,
               context := "1.2.3".data, pointer := 5 } := by
  refine ⟨?_, runEvalG⟩
  intro s hne hall
  have hemp : s.tokenBuffer.isEmpty = false := by
    simpa [List.isEmpty_iff] using hne
  constructor
  · intro hd
    unfold flushBuffer
    rw [if_neg (by simp [hemp]), if_pos hall, if_neg (by omega)]
    unfold finishToken
    rw [if_neg (by simp [hemp])]
  · intro hd
    unfold flushBuffer
    rw [if_neg (by simp [hemp]), if_pos hall, if_pos hd]

/-- C7 witness: the policy applied to a concrete state whose buffer is `1.5`
(one dot): the buffer is emitted as the Number token `1.5`. -/
theorem c7_witness :
    flushBuffer { input := [], tokens := [], tokenBuffer := ['1', '.', '5'], stack := [],
                  position := 3, line := 1, column := 4, inString := false,
                  stringDelimiter := none, opts := defaultOptions } =
      .ok { input := [], tokens := [Token.atom "number" "1.5" none], tokenBuffer := [],
            stack := [], position := 3, line := 1, column := 4, inString := false,
            stringDelimiter := none, opts := defaultOptions } := by
  have h := (c7_flush_number_policy.1
    { input := [], tokens := [], tokenBuffer := ['1', '.', '5'], stack := [],
      position := 3, line := 1, column := 4, inString := false,
      stringDelimiter := none, opts := defaultOptions }
    (by simp) (by decide)).1 (by decide)
  simpa [addTok] using h

/-- C4 (amended).  The regex heuristic requires the last meaningful token's
type to be symbol or keyword in addition to its value being one of
`=`, `(`, `[`, comma, `return`, `throw`; a last meaningful token of type
identifier never enables regex context.  Since `return` is emitted as an
identifier, `return /a/;` yields division symbols and no regex token, while
`= /a/;` (last meaningful token the symbol `=`) does yield the regex token
`/a/`. -/
theorem c4_regex_context_requires_symbol_type :
    (∀ (s : St) (t : Token), getLastMeaningfulToken s = some t →
        tokType t = "identifier" → checkRegex s = false) ∧
    run defaultOptions "= /a/;" =
      .ok [Token.atom "symbol" "=" none, Token.atom "regex" "/a/" none,
           Token.atom "symbol" ";" none] ∧
    run defaultOptions "return /a/;" =
      .ok [Token.atom "identifier" "return" none, Token.atom "symbol" "/" none,
           Token.atom "identifier" "a" none, Token.atom "symbol" "/" none,
           Token.atom "symbol" ";" none] := by
  refine ⟨?_, runEvalH, runEvalE⟩
  intro s t hlast hty
  unfold checkRegex
  split
  · rfl
  · simp [hlast, hty]

/-- C4 witness: the heuristic applied at a concrete state whose last
meaningful token is the identifier `return` and whose remaining characters
are `/a/`: `#checkRegex` rejects. -/
theorem c4_witness :
    checkRegex { input := ['/', 'a', '/'], tokens := [Token.atom "identifier" "return" none],
                 tokenBuffer := [], stack := [], position := 0, line := 1, column := 8,
                 inString := false, stringDelimiter := none, opts := defaultOptions } = false :=
  c4_regex_context_requires_symbol_type.1
    { input := ['/', 'a', '/'], tokens := [Token.atom "identifier" "return" none],
      tokenBuffer := [], stack := [], position := 0, line := 1, column := 8,
      inString := false, stringDelimiter := none, opts := defaultOptions }
    (Token.atom "identifier" "return" none) rfl rfl

/-- C9.  Re-invoking `tokenize()` on an instance whose first call succeeded
returns the same (hence equally non-empty) token sequence again: the loop
exits immediately at the consumed position, the buffer is already empty, and
the stored `#tokens` are returned unchanged — the second call does not
silently return an empty result. -/
theorem c9_second_tokenize_same :
    ∀ (input : String) (opts : Options) (ts : List Token) (s2 : St),
      tokenize (initSt input opts) = .ok (ts, s2) → ts ≠ [] →
      tokenize s2 = .ok (ts, s2) ∧ ts ≠ [] := by
  intro input opts ts s2 h hne
  refine ⟨?_, hne⟩
  unfold tokenize at h
  cases hl : loop ((initSt input opts).input.length + 1) (initSt input opts) with
  | error e => rw [hl, exc_bind_error] at h; cases h
  | ok s1 =>
    rw [hl, exc_bind_ok] at h
    have hpos1 : s1.input.length ≤ s1.position := loop_ok_position hl
    unfold finish at h
    cases hfb : flushBuffer s1 with
    | error e => rw [hfb, exc_bind_error] at h; cases h
    | ok s3 =>
      rw [hfb, exc_bind_ok] at h
      obtain ⟨hi, hp, -, -, hstr, -, -, hbuf, -⟩ := flushBuffer_ok_fields hfb
      split at h
      · cases h
      · rename_i hstk
        split at h
        · cases h
        · rename_i hinstr
          cases h
          have hpos3 : s2.input.length ≤ s2.position := by rw [hi, hp]; exact hpos1
          unfold tokenize
          rw [loop_done (by omega), exc_bind_ok]
          unfold finish
          rw [flushBuffer, if_pos (by simp [hbuf]), exc_bind_ok]
          simp only [hstk]
          rw [if_neg hinstr]

/-- C9 witness: for input `x` the first call succeeds with the single
identifier token and an instance state at the consumed position; calling
`tokenize()` on that state again returns the same non-empty sequence. -/
theorem c9_witness :
    tokenize ({ input := ['x'], tokens := [TokTok.Token.atom "identifier" "x" none], tokenBuffer := [], stack := [], position := 1, line := 1, column := 2, inString := false, stringDelimiter := none, opts := { trackPosition := true, preserveWhitespace := false, preserveComments := true, allowRegex := true } } : St) = .ok ([TokTok.Token.atom "identifier" "x" none], ({ input := ['x'], tokens := [TokTok.Token.atom "identifier" "x" none], tokenBuffer := [], stack := [], position := 1, line := 1, column := 2, inString := false, stringDelimiter := none, opts := { trackPosition := true, preserveWhitespace := false, preserveComments := true, allowRegex := true } } : St)) ∧
    ([TokTok.Token.atom "identifier" "x" none] : List Token) ≠ [] :=
  c9_second_tokenize_same "x" defaultOptions _ _ tokEvalA (by simp)


/-- Membership in a `filterRecursive` result: every kept token either has the
requested type or is a block whose (replaced) children are non-empty. -/
theorem filterList_mem (ty : String) :
    ∀ (ts : List Token) (t : Token), t ∈ filterList ty ts →
      tokType t = ty ∨ ∃ op cl ch, t = Token.block op cl ch ∧ ch ≠ [] := by
  intro ts
  induction ts with
  | nil => intro t ht; simp [filterList] at ht
  | cons hd rest ih =>
    intro t ht
    cases hd with
    | atom a v p =>
      simp only [filterList, filterTok] at ht
      split at ht
      · rename_i hk
        rcases List.mem_cons.mp ht with rfl | hm
        · exact Or.inl (beq_iff_eq.mp hk)
        · exact ih t hm
      · exact ih t ht
    | block op cl ch =>
      simp only [filterList, filterTok] at ht
      split at ht
      · rename_i hk
        rcases List.mem_cons.mp ht with rfl | hm
        · exact Or.inl (by simpa [tokType] using beq_iff_eq.mp hk)
        · exact ih t hm
      · split at ht
        · rename_i hlen
          rcases List.mem_cons.mp ht with rfl | hm
          · refine Or.inr ⟨op, cl, filterList ty ch, rfl, ?_⟩
            have hlen2 : 0 < (filterList ty ch).length := by simpa using hlen
            intro hnil
            rw [hnil] at hlen2
            simp at hlen2
          · exact ih t hm
        · exact ih t ht

/-- C3 counterexample.  `filter(type)` is not read-only: after a successful
`tokenize()` of `[x]`, calling `filter("number")` returns an empty result but
destructively replaces the block's children with the (empty) filtered list —
the instance's token tree afterwards differs from the tree `tokenize()`
built. -/
theorem c3_counterexample :
    tokenize (initSt "[x]" defaultOptions) =
      .ok ([TokTok.Token.block '[' ']' [TokTok.Token.atom "identifier" "x" none]], ({ input := ['[', 'x', ']'], tokens := [TokTok.Token.block '[' ']' [TokTok.Token.atom "identifier" "x" none]], tokenBuffer := [], stack := [], position := 3, line := 1, column := 4, inString := false, stringDelimiter := none, opts := { trackPosition := true, preserveWhitespace := false, preserveComments := true, allowRegex := true } } : St)) ∧
    filterOp "number" ({ input := ['[', 'x', ']'], tokens := [TokTok.Token.block '[' ']' [TokTok.Token.atom "identifier" "x" none]], tokenBuffer := [], stack := [], position := 3, line := 1, column := 4, inString := false, stringDelimiter := none, opts := { trackPosition := true, preserveWhitespace := false, preserveComments := true, allowRegex := true } } : St) = ([], ({ input := ['[', 'x', ']'], tokens := [TokTok.Token.block '[' ']' []], tokenBuffer := [], stack := [], position := 3, line := 1, column := 4, inString := false, stringDelimiter := none, opts := { trackPosition := true, preserveWhitespace := false, preserveComments := true, allowRegex := true } } : St)) ∧
    ({ input := ['[', 'x', ']'], tokens := [TokTok.Token.block '[' ']' []], tokenBuffer := [], stack := [], position := 3, line := 1, column := 4, inString := false, stringDelimiter := none, opts := { trackPosition := true, preserveWhitespace := false, preserveComments := true, allowRegex := true } } : St).tokens ≠ ({ input := ['[', 'x', ']'], tokens := [TokTok.Token.block '[' ']' [TokTok.Token.atom "identifier" "x" none]], tokenBuffer := [], stack := [], position := 3, line := 1, column := 4, inString := false, stringDelimiter := none, opts := { trackPosition := true, preserveWhitespace := false, preserveComments := true, allowRegex := true } } : St).tokens := by
  refine ⟨tokEvalM, by rfl, by simp⟩

/-- C3 (amended).  `filter(type)` returns a list containing only tokens of
the requested type (pruning blocks whose filtered children become empty and
keeping blocks that still contain matches), but it is not read-only: on every
block it traverses whose type is not the requested one it replaces the
block's `children` in place with the filtered children, and the instance's
top-level token array elements are left in that mutated state. -/
theorem c3_filter_keeps_matches_but_mutates :
    (∀ (ty : String) (ts : List Token) (t : Token), t ∈ filterList ty ts →
        tokType t = ty ∨ ∃ op cl ch, t = Token.block op cl ch ∧ ch ≠ []) ∧
    (∀ (ty : String) (op cl : Char) (ch : List Token), "block" ≠ ty →
        (filterTok ty (Token.block op cl ch)).2 = Token.block op cl (filterList ty ch)) ∧
    (∀ (ty : String) (s : St), s.stack = [] →
        (filterOp ty s).2.tokens = filterPost ty s.tokens) := by
  refine ⟨filterList_mem, ?_, ?_⟩
  · intro ty op cl ch h
    simp only [filterTok]
    rw [if_neg (by simp [h])]
  · intro ty s h
    simp only [filterOp, h]

/-- C3 witness: the membership law applied at the concrete list holding the
single Number token `1`, filtered for type `number`: the kept token has the
requested type. -/
theorem c3_witness :
    tokType (Token.atom "number" "1" none) = "number" ∨
    ∃ op cl ch, Token.atom "number" "1" none = Token.block op cl ch ∧ ch ≠ [] :=
  c3_filter_keeps_matches_but_mutates.1 "number" [Token.atom "number" "1" none]
    (Token.atom "number" "1" none) (by simp [filterList, filterTok])


theorem getD_of_drop_cons {α : Type} {l : List α} {n : Nat} {c : α} {rest : List α}
    (h : l.drop n = c :: rest) (d : α) : l.getD n d = c := by
  induction n generalizing l with
  | zero => rw [List.drop_zero] at h; subst h; rfl
  | succ n ih =>
    cases l with
    | nil => simp at h
    | cons x xs =>
      rw [List.drop_succ_cons] at h
      simpa [List.getD_cons_succ] using ih h

theorem drop_cons_succ {α : Type} {l : List α} {n : Nat} {c : α} {rest : List α}
    (h : l.drop n = c :: rest) : l.drop (n + 1) = rest := by
  induction n generalizing l with
  | zero => rw [List.drop_zero] at h; subst h; simp
  | succ n ih =>
    cases l with
    | nil => simp at h
    | cons x xs =>
      rw [List.drop_succ_cons] at h
      rw [List.drop_succ_cons]
      exact ih h

theorem lt_of_drop_cons {α : Type} {l : List α} {n : Nat} {c : α} {rest : List α}
    (h : l.drop n = c :: rest) : n < l.length := by
  have hlen := congrArg List.length h
  rw [List.length_drop] at hlen
  simp only [List.length_cons] at hlen
  omega


theorem step_string_close
    (inp : List Char) (toks : List Token) (buf : List Char)
    (pos ln col : Nat) (o : Options) (q : Char)
    (hq : q ≠ '\\') (hchar : inp.getD pos ' ' = q) (hbuf : buf ≠ []) :
    step ⟨inp, toks, buf, [], pos, ln, col, true, some q, o⟩ =
      .ok ⟨inp, toks ++ [Token.atom "string" ⟨buf⟩ none], [], [], pos + 1, ln,
           (if (!(q == '\n') && !(q == '\r')) = true then col + 1 else col), false, none, o⟩ := by
  have hq1 : (q == '\\') = false := by simpa using hq
  have hbe : buf.isEmpty = false := by simpa [List.isEmpty_iff] using hbuf
  simp only [step, handleStringContent, finishToken, addTok, exc_bind_ok]
  dsimp only
  rw [hchar]
  simp only [hq1, Bool.false_and, Bool.false_eq_true, if_false, beq_self_eq_true, if_true, hbe,
    exc_bind_ok]
  split <;> rfl



theorem step_string_plain
    (inp : List Char) (toks : List Token) (buf : List Char)
    (pos ln col : Nat) (o : Options) (q c : Char)
    (hcq : c ≠ q) (hcb : c ≠ '\\') (hchar : inp.getD pos ' ' = c) :
    step ⟨inp, toks, buf, [], pos, ln, col, true, some q, o⟩ =
      .ok ⟨inp, toks, buf ++ [c], [], pos + 1, ln,
           (if (!(c == '\n') && !(c == '\r')) = true then col + 1 else col), true, some q, o⟩ := by
  have hc1 : (c == '\\') = false := by simpa using hcb
  have hsome : ((some c == some q)) = false := by
    show (c == q) = false
    simpa using hcq
  simp only [step, handleStringContent, exc_bind_ok]
  dsimp only
  rw [hchar]
  simp only [hc1, Bool.false_and, Bool.false_eq_true, if_false, hsome, if_true]
  split <;> rfl


theorem step_string_escape
    (inp : List Char) (toks : List Token) (buf : List Char)
    (pos ln col : Nat) (o : Options) (q c : Char)
    (hlt2 : pos + 1 < inp.length)
    (hchar : inp.getD pos ' ' = '\\') (hchar2 : inp.getD (pos + 1) ' ' = c) :
    step ⟨inp, toks, buf, [], pos, ln, col, true, some q, o⟩ =
      .ok ⟨inp, toks, buf ++ ['\\', c], [], pos + 1 + 1, ln, col + 1, true, some q, o⟩ := by
  simp only [step, handleStringContent, exc_bind_ok]
  dsimp only
  rw [hchar, hchar2]
  simp only [beq_self_eq_true, Bool.true_and, decide_eq_true hlt2, if_true]
  rfl

theorem loop_string_run (q : Char) (hq : q ≠ '\\') :
    ∀ (b : List Char), BodyOk q b →
    ∀ (inp : List Char) (toks : List Token) (buf : List Char) (pos ln col fuel : Nat)
      (o : Options),
      inp.drop pos = b ++ [q] →
      buf ++ b ≠ [] →
      b.length + 1 ≤ fuel →
      ∃ col2, loop fuel ⟨inp, toks, buf, [], pos, ln, col, true, some q, o⟩ =
        .ok ⟨inp, toks ++ [Token.atom "string" ⟨buf ++ b⟩ none], [], [], inp.length, ln, col2,
             false, none, o⟩ := by
  intro b hb
  induction hb with
  | nil =>
    intro inp toks buf pos ln col fuel o hdrop hne hfuel
    simp only [List.nil_append] at hdrop
    have hlt := lt_of_drop_cons hdrop
    have hchar := getD_of_drop_cons hdrop ' '
    have hlen : inp.length = pos + 1 := by
      have hl := congrArg List.length hdrop
      rw [List.length_drop] at hl
      simp only [List.length_cons, List.length_nil] at hl
      omega
    obtain ⟨f, rfl⟩ : ∃ f, fuel = f + 1 := ⟨fuel - 1, by omega⟩
    have hne2 : buf ≠ [] := by simpa using hne
    refine ⟨if (!(q == '\n') && !(q == '\r')) = true then col + 1 else col, ?_⟩
    rw [List.append_nil, hlen]
    refine loop_step hlt (step_string_close inp toks buf pos ln col o q hq hchar hne2)
      (loop_done ?_)
    dsimp only
    omega
  | plain c rest hcq hcb hbrest ih =>
    intro inp toks buf pos ln col fuel o hdrop hne hfuel
    rw [List.cons_append] at hdrop
    have hlt := lt_of_drop_cons hdrop
    have hchar := getD_of_drop_cons hdrop ' '
    have hdrop2 := drop_cons_succ hdrop
    obtain ⟨f, rfl⟩ : ∃ f, fuel = f + 1 := ⟨fuel - 1, by omega⟩
    obtain ⟨col2, hrec⟩ := ih inp toks (buf ++ [c]) (pos + 1) ln
      (if (!(c == '\n') && !(c == '\r')) = true then col + 1 else col) f o hdrop2
      (by simp)
      (by simp only [List.length_cons] at hfuel; omega)
    refine ⟨col2, ?_⟩
    refine loop_step hlt (step_string_plain inp toks buf pos ln col o q c hcq hcb hchar) ?_
    have hap : (buf ++ [c]) ++ rest = buf ++ (c :: rest) := by simp
    rw [hap] at hrec
    exact hrec
  | escape c rest hbrest ih =>
    intro inp toks buf pos ln col fuel o hdrop hne hfuel
    rw [List.cons_append, List.cons_append] at hdrop
    have hlt := lt_of_drop_cons hdrop
    have hchar := getD_of_drop_cons hdrop ' '
    have hdropc := drop_cons_succ hdrop
    have hlt2 := lt_of_drop_cons hdropc
    have hchar2 := getD_of_drop_cons hdropc ' '
    have hdrop2 := drop_cons_succ hdropc
    obtain ⟨f, rfl⟩ : ∃ f, fuel = f + 1 := ⟨fuel - 1, by omega⟩
    obtain ⟨col2, hrec⟩ := ih inp toks (buf ++ ['\\', c]) (pos + 1 + 1) ln (col + 1) f o hdrop2
      (by simp)
      (by simp only [List.length_cons] at hfuel; omega)
    refine ⟨col2, ?_⟩
    refine loop_step hlt
      (step_string_escape inp toks buf pos ln col o q c hlt2 hchar hchar2) ?_
    have hap : (buf ++ ['\\', c]) ++ rest = buf ++ ('\\' :: c :: rest) := by simp
    rw [hap] at hrec
    exact hrec


/-- C2 (amended).  Tokenizing a well-formed string literal `q · body · q`
(any of the three quote characters, body free of unescaped delimiters and
backslashes except in two-character escape pairs, non-empty) succeeds and
produces exactly one token of type `string` whose value is the raw,
still-escaped BODY of the literal: the delimiters are NOT part of the value,
contrary to the spec sentence that says the value includes the delimiters. -/
theorem c2_string_value_excludes_delimiters :
    ∀ (q : Char) (b : List Char) (o : Options),
      (q = '"' ∨ q = '\'' ∨ q = '`') → BodyOk q b → b ≠ [] →
      run o (String.mk (q :: (b ++ [q]))) = .ok [Token.atom "string" ⟨b⟩ none] := by
  intro q b o hquote hb hbne
  have hq : q ≠ '\\' := by rcases hquote with rfl | rfl | rfl <;> decide
  have hcc : checkComment ⟨q :: (b ++ [q]), [], [], [], 0, 1, 1, false, none, o⟩ = false := by
    rcases hquote with rfl | rfl | rfl <;> rfl
  have hcr : checkRegex ⟨q :: (b ++ [q]), [], [], [], 0, 1, 1, false, none, o⟩ = false := by
    rcases hquote with rfl | rfl | rfl <;> rfl
  have hstep0 : step ⟨q :: (b ++ [q]), [], [], [], 0, 1, 1, false, none, o⟩ =
      .ok ⟨q :: (b ++ [q]), [], [], [], 1, 1, 2, true, some q, o⟩ := by
    rcases hquote with rfl | rfl | rfl <;>
      (simp only [step, startString, flushBuffer, exc_bind_ok, hcc, hcr, Bool.and_false,
        Bool.false_eq_true, if_false]; rfl)
  obtain ⟨col2, hrun⟩ := loop_string_run q hq b hb (q :: (b ++ [q])) [] [] 1 1 2
    (b.length + 2) o rfl (by simpa using hbne) (by omega)
  have hfuel_eq : (q :: (b ++ [q])).length + 1 = (b.length + 2) + 1 := by
    simp only [List.length_cons, List.length_append, List.length_nil]
  have hloopAll : loop ((q :: (b ++ [q])).length + 1)
      ⟨q :: (b ++ [q]), [], [], [], 0, 1, 1, false, none, o⟩ =
      .ok ⟨q :: (b ++ [q]), [] ++ [Token.atom "string" ⟨[] ++ b⟩ none], [], [],
           (q :: (b ++ [q])).length, 1, col2, false, none, o⟩ := by
    rw [hfuel_eq]
    exact loop_step (by simp) hstep0 hrun
  show (tokenize (initSt (String.mk (q :: (b ++ [q]))) o)).map Prod.fst = _
  rw [show initSt (String.mk (q :: (b ++ [q]))) o =
      ⟨q :: (b ++ [q]), [], [], [], 0, 1, 1, false, none, o⟩ from rfl]
  unfold tokenize
  dsimp only
  rw [hloopAll, exc_bind_ok]
  rfl

/-- C2 witness: the amended statement applied at the concrete literal
`"a\n"` (delimiter `"` with body `a\n`), whose value keeps the escape pair
raw and drops both quotes. -/
theorem c2_witness :
    run defaultOptions "\"a\\n\"" = .ok [Token.atom "string" "a\\n" none] := by
  have h := c2_string_value_excludes_delimiters '"' ['a', '\\', 'n'] defaultOptions
    (Or.inl rfl)
    (BodyOk.plain 'a' ['\\', 'n'] (by decide) (by decide)
      (BodyOk.escape 'n' [] BodyOk.nil))
    (by simp)
  exact h


theorem getSome_of_drop_cons {α : Type} {l : List α} {n : Nat} {c : α} {rest : List α}
    (h : l.drop n = c :: rest) : l.get? n = some c := by
  induction n generalizing l with
  | zero => rw [List.drop_zero] at h; subst h; rfl
  | succ n ih =>
    cases l with
    | nil => simp at h
    | cons x xs =>
      rw [List.drop_succ_cons] at h
      simpa using ih h

/-- The mismatched-closer path of `#finishBlock(char)`: whenever the buffer
flush succeeds and the innermost open block's closer differs from the
encountered closing bracket, the result is the mismatched-brackets error
naming the expected closer (the block's) and the actual one. -/
theorem finishBlock_mismatch {s s2 : St} {c op cl : Char} {ch : List Token}
    {rest : List (Char × Char × List Token)}
    (hflush : flushBuffer s = .ok s2) (hstack : s2.stack = (op, cl, ch) :: rest)
    (hne : cl ≠ c) :
    finishBlock c s = .error (mkErr s2 (.mismatchedBracket cl c)) := by
  have hbne : (cl != c) = true := by simpa using hne
  simp only [finishBlock, hflush, exc_bind_ok, hstack]
  rw [if_pos hbne]

/-- The scan-loop iteration that meets a closing bracket not matching the
innermost open block's closer produces the mismatched-brackets error. -/
theorem step_mismatched_closer {s s2 : St} {c op cl : Char} {ch : List Token}
    {rest : List (Char × Char × List Token)} {tail : List Char}
    (hstr : s.inString = false) (hdrop : s.input.drop s.position = c :: tail)
    (hc : c = ']' ∨ c = '}' ∨ c = ')')
    (hflush : flushBuffer s = .ok s2) (hstack : s2.stack = (op, cl, ch) :: rest)
    (hne : cl ≠ c) :
    step s = .error (mkErr s2 (.mismatchedBracket cl c)) := by
  have hchar : s.input.getD s.position ' ' = c := getD_of_drop_cons hdrop ' '
  have hget : s.input[s.position]? = some c := by
    simpa [List.get?_eq_getElem?] using getSome_of_drop_cons hdrop
  have hcc : checkComment s = false := by
    rcases hc with rfl | rfl | rfl <;> simp +decide [checkComment, hdrop]
  have hcr : checkRegex s = false := by
    rcases hc with rfl | rfl | rfl <;> simp +decide [checkRegex, hget]
  have hmc : checkMultiCharOperator s = false := by
    rcases hc with rfl | rfl | rfl <;>
      simp +decide [checkMultiCharOperator, hdrop, threeCharOps, twoCharOps]
  have hfb := finishBlock_mismatch hflush hstack hne
  rcases hc with rfl | rfl | rfl <;>
    simp +decide [step, hstr, hchar, hget, Option.getD_some, hcc, hcr, hmc, hfb,
      exc_bind_error]

/-- `tokenize()` on any state about to meet a closing bracket not matching
the innermost open block's closer fails with the mismatched-brackets error. -/
theorem tokenize_mismatched_closer {s s2 : St} {c op cl : Char} {ch : List Token}
    {rest : List (Char × Char × List Token)} {tail : List Char}
    (hstr : s.inString = false) (hdrop : s.input.drop s.position = c :: tail)
    (hc : c = ']' ∨ c = '}' ∨ c = ')')
    (hflush : flushBuffer s = .ok s2) (hstack : s2.stack = (op, cl, ch) :: rest)
    (hne : cl ≠ c) :
    tokenize s = .error (mkErr s2 (.mismatchedBracket cl c)) := by
  have hlt : s.position < s.input.length := lt_of_drop_cons hdrop
  have hstep := step_mismatched_closer hstr hdrop hc hflush hstack hne
  unfold tokenize
  rw [loop_step_err hlt hstep, exc_bind_error]

/-- C8.  Whenever a closing bracket is encountered whose character does not
equal the closer of the innermost open block, `tokenize()` fails with the
mismatched-brackets error naming the expected closer and the actual one:
both the `#finishBlock` law and its lifting through the scan loop to
`tokenize()` hold for every such state; in particular input `[1,2,3)` fails
naming expected `]` and actual `)` at offset 6 (the position of `)`),
line 1, column 7. -/
theorem c8_mismatched_bracket :
    (∀ (s s2 : St) (c op cl : Char) (ch : List Token)
        (rest : List (Char × Char × List Token)),
        flushBuffer s = .ok s2 → s2.stack = (op, cl, ch) :: rest → cl ≠ c →
        finishBlock c s = .error (mkErr s2 (.mismatchedBracket cl c))) ∧
    (∀ (s s2 : St) (c op cl : Char) (ch : List Token)
        (rest : List (Char × Char × List Token)) (tail : List Char),
        s.inString = false → s.input.drop s.position = c :: tail →
        (c = ']' ∨ c = '}' ∨ c = ')') →
        flushBuffer s = .ok s2 → s2.stack = (op, cl, ch) :: rest → cl ≠ c →
        tokenize s = .error (mkErr s2 (.mismatchedBracket cl c))) ∧
    run defaultOptions "[1,2,3)" =
      .error { kind := .mismatchedBracket ']' ')', position := 6, line := 1, column := 7,
               context := "[1,2,3)".data, pointer := 6 } :=
  ⟨fun _ _ _ _ _ _ _ hf hs hn => finishBlock_mismatch hf hs hn,
   fun _ _ _ _ _ _ _ _ h1 h2 h3 h4 h5 h6 =>
     tokenize_mismatched_closer h1 h2 h3 h4 h5 h6,
   runEvalB⟩

/-- C8 witness: the universal tokenize-level law applied at the concrete
state of input `[)` sitting on the `)` with the block opened by `[` still
on the stack, each hypothesis discharged by `rfl` or `decide`. -/
theorem c8_witness :
    tokenize ⟨['[', ')'], [], [], [('[', ']', [])], 1, 1, 2, false, none, defaultOptions⟩ =
      .error (mkErr ⟨['[', ')'], [], [], [('[', ']', [])], 1, 1, 2, false, none, defaultOptions⟩
        (.mismatchedBracket ']' ')')) :=
  c8_mismatched_bracket.2.1
    ⟨['[', ')'], [], [], [('[', ']', [])], 1, 1, 2, false, none, defaultOptions⟩
    ⟨['[', ')'], [], [], [('[', ']', [])], 1, 1, 2, false, none, defaultOptions⟩
    ')' '[' ']' [] [] []
    rfl rfl (Or.inr (Or.inr rfl)) rfl rfl (by decide)

end TokTok
